import Mathlib

/-!
# TFT RoboEyes: a shallow embedding of `TFT_RoboEyes.h`

The class `TFT_RoboEyes` is embedded as a record `Eyes` of its data members and one
function per member function.  Conventions:

* `int` members are `Int` (signed overflow is undefined in C++ and is not modelled);
* `byte`, `uint16_t` and `unsigned long` members are `Nat`; arithmetic on `unsigned long`
  is reduced modulo `2^32` with `wrap32`, a `byte` argument is given by its value;
* `millis()` and `random(..)` are inputs: every function that reads the clock takes the
  reading as an argument, and every `random` call site of `update` has a field in `Draws`
  holding the value that call returned;
* drawing is a list of `DrawCmd`, the calls made on the display or on the sprite;
* `float` arithmetic is IEEE-754 binary32 with round-to-nearest-even, every operation
  rounded on its own (no fused multiply-add), modelled exactly on dyadic numbers (`F32`).
-/

namespace RoboEyes

/-! ## Single-precision arithmetic -/

/-- Number of low bits a magnitude loses when it is cut to 24 significant bits
(the second argument is the magnitude, the first is recursion fuel). -/
def normShift : Nat → Nat → Nat
  | 0, _ => 0
  | fuel + 1, n => if n < 16777216 then 0 else normShift fuel (n / 2) + 1

/-- Round a magnitude to 24 significant bits, to nearest, ties to even. -/
def roundNat (n : Nat) : Nat :=
  let sh := normShift n n
  let q := n / 2 ^ sh
  let r := n % 2 ^ sh
  if 2 ^ sh < 2 * r ∨ (2 * r = 2 ^ sh ∧ q % 2 = 1) then (q + 1) * 2 ^ sh else q * 2 ^ sh

/-- Round a signed significand to 24 significant bits (sign and magnitude). -/
def roundInt (z : Int) : Int :=
  if z < 0 then -((roundNat z.natAbs : Nat) : Int) else ((roundNat z.natAbs : Nat) : Int)

/-- A binary32 value `m * 2^e`.  The exponent range is not limited: the values met in
`smoothTransitions` (32-bit integers, `0.2f`, their products and sums) are far from the
overflow and underflow thresholds of binary32. -/
structure F32 where
  m : Int
  e : Int
deriving DecidableEq, Repr

/-- The binary32 value nearest to the exact number `m * 2^e`. -/
def F32.round (m e : Int) : F32 := ⟨roundInt m, e⟩

/-- Conversion `int → float`. -/
def F32.ofInt (v : Int) : F32 := F32.round v 0

/-- Product of two floats: the exact product, rounded. -/
def F32.mul (a b : F32) : F32 := F32.round (a.m * b.m) (a.e + b.e)

/-- Sum of two floats: the exact sum, rounded. -/
def F32.add (a b : F32) : F32 :=
  let e := min a.e b.e
  F32.round (a.m * 2 ^ (a.e - e).toNat + b.m * 2 ^ (b.e - e).toNat) e

/-- Conversion `float → int`: truncation toward zero. -/
def F32.toInt (a : F32) : Int :=
  if 0 ≤ a.e then a.m * 2 ^ a.e.toNat else Int.tdiv a.m (2 ^ (-a.e).toNat)

/-- The constant `float smoothFactor = 0.2`: the binary32 nearest to 0.2 is
`13421773 * 2^-26`. -/
def smoothFactor : F32 := ⟨13421773, -26⟩

/-- One easing assignment `cur += (next - cur) * smoothFactor` on `int` variables:
the difference is an `int`, the product and the sum are `float`, the result is
converted back to `int`. -/
def easeStep (cur next : Int) : Int :=
  F32.toInt (F32.add (F32.ofInt cur) (F32.mul (F32.ofInt (next - cur)) smoothFactor))

/-! ## Machine integers -/

/-- Conversion to `unsigned long` (32 bits). -/
def wrap32 (z : Int) : Nat := (z % 4294967296).toNat

/-! ## The data members -/

/-- The data members of `TFT_RoboEyes` (the two pointers `display` and `sprite` are
represented by the drawing commands and by `useSprite`). -/
structure Eyes where
  useSprite : Bool
  screenWidth : Int
  screenHeight : Int
  frameInterval : Int
  fpsTimer : Nat
  eyeLwidthDefault : Nat
  eyeLheightDefault : Nat
  eyeRwidthDefault : Nat
  eyeRheightDefault : Nat
  eyeLborderRadius : Nat
  eyeRborderRadius : Nat
  spaceBetween : Int
  eyeLwidthCurrent : Int
  eyeLheightCurrent : Int
  eyeRwidthCurrent : Int
  eyeRheightCurrent : Int
  eyeLwidthNext : Int
  eyeLheightNext : Int
  eyeRwidthNext : Int
  eyeRheightNext : Int
  eyeLx : Int
  eyeLy : Int
  eyeRx : Int
  eyeRy : Int
  eyeLxNext : Int
  eyeLyNext : Int
  eyeRxNext : Int
  eyeRyNext : Int
  eyeLxDefault : Int
  eyeLyDefault : Int
  eyeRxDefault : Int
  eyeRyDefault : Int
  eyeL_open : Bool
  eyeR_open : Bool
  currentMood : Nat
  curious : Bool
  cyclops : Bool
  autoBlinkerEnabled : Bool
  autoBlinkerInterval : Int
  autoBlinkerVariation : Int
  lastBlink : Nat
  nextBlinkTime : Nat
  idleModeEnabled : Bool
  idleModeInterval : Int
  idleModeVariation : Int
  lastIdle : Nat
  nextIdleTime : Nat
  isBlinking : Bool
  blinkPhase : Int
  prevLeftEyeX : Int
  prevLeftEyeY : Int
  prevRightEyeX : Int
  prevRightEyeY : Int
  prevLeftWidth : Int
  prevLeftHeight : Int
  prevRightWidth : Int
  prevRightHeight : Int
  firstDraw : Bool
  bgColor : Nat
  fgColor : Nat

/-- The surface a drawing call is made on. -/
inductive Surface where
  | sprite
  | display
deriving DecidableEq, Repr

/-- The calls made on the `Adafruit_GFX` collaborators. -/
inductive DrawCmd where
  | fillScreen (tgt : Surface) (color : Nat)
  | fillRoundRect (tgt : Surface) (x y w h r : Int) (color : Nat)
  | fillTriangle (tgt : Surface) (x0 y0 x1 y1 x2 y2 : Int) (color : Nat)
  | drawRGBBitmap (x y w h : Int)
deriving DecidableEq, Repr

/-- The values returned by the `random` calls of one `update()`, one field per call site:
`blinkJitter` for `random(-autoBlinkerVariation, autoBlinkerVariation)`, `idleX` for
`random(getScreenConstraint_X())`, `idleY` for `random(getScreenConstraint_Y())` and
`idleJitter` for `random(-idleModeVariation, idleModeVariation)`. -/
structure Draws where
  blinkJitter : Int
  idleX : Int
  idleY : Int
  idleJitter : Int
deriving DecidableEq, Repr

/-- What one call of `update()` does: the new state, the number of `random` calls made
and the drawing calls issued, in order. -/
structure UpdateResult where
  st : Eyes
  randomCalls : Nat
  draws : List DrawCmd

/-! ## Constructor and configuration -/

/-- The constructor.  The members it does not assign keep the indeterminate content `g`
of the storage the object is built in. -/
def construct (g : Eyes) : Eyes :=
  { g with
    useSprite := false
    eyeLwidthDefault := 36
    eyeLheightDefault := 36
    eyeRwidthDefault := 36
    eyeRheightDefault := 36
    eyeLborderRadius := 8
    eyeRborderRadius := 8
    spaceBetween := 10
    eyeLwidthCurrent := 36
    eyeLheightCurrent := 36
    eyeRwidthCurrent := 36
    eyeRheightCurrent := 36
    eyeLwidthNext := 36
    eyeLheightNext := 36
    eyeRwidthNext := 36
    eyeRheightNext := 36
    eyeLx := 0
    eyeLy := 0
    eyeRx := 0
    eyeRy := 0
    eyeLxNext := 0
    eyeLyNext := 0
    eyeRxNext := 0
    eyeRyNext := 0
    eyeLxDefault := 0
    eyeLyDefault := 0
    eyeRxDefault := 0
    eyeRyDefault := 0
    eyeL_open := true
    eyeR_open := true
    currentMood := 0
    curious := false
    cyclops := false
    autoBlinkerEnabled := false
    idleModeEnabled := false
    isBlinking := false
    blinkPhase := 0
    bgColor := 0
    fgColor := 65535
    frameInterval := 33
    fpsTimer := 0 }

/-- The member function `begin(width, height, maxFramerate)`; `now` is the reading of
`millis()` and `spriteOk` tells whether the sprite buffer could be allocated (`useSprite`
is set when it could and is left alone otherwise).  The division `1000 / maxFramerate`
has no result for a zero frame rate.  The two `fillScreen` calls of `begin` are not
recorded. -/
def begin (s : Eyes) (width height : Int) (maxFramerate : Nat) (now : Nat)
    (spriteOk : Bool) : Option Eyes :=
  if maxFramerate = 0 then none
  else
    let eyeLxDefault :=
      Int.tdiv (width - ((s.eyeLwidthDefault : Int) + s.spaceBetween + (s.eyeRwidthDefault : Int))) 2
    let eyeLyDefault := Int.tdiv (height - (s.eyeLheightDefault : Int)) 2
    let eyeRxDefault := eyeLxDefault + (s.eyeLwidthDefault : Int) + s.spaceBetween
    let eyeRyDefault := eyeLyDefault
    some { s with
      screenWidth := width
      screenHeight := height
      frameInterval := Int.tdiv 1000 (maxFramerate : Int)
      fpsTimer := now
      eyeLxDefault := eyeLxDefault
      eyeLyDefault := eyeLyDefault
      eyeRxDefault := eyeRxDefault
      eyeRyDefault := eyeRyDefault
      eyeLx := eyeLxDefault
      eyeLy := eyeLyDefault
      eyeRx := eyeRxDefault
      eyeRy := eyeRyDefault
      eyeLxNext := eyeLxDefault
      eyeLyNext := eyeLyDefault
      eyeRxNext := eyeRxDefault
      eyeRyNext := eyeRyDefault
      useSprite := spriteOk || s.useSprite }

def setWidth (s : Eyes) (leftEye rightEye : Nat) : Eyes :=
  { s with
    eyeLwidthDefault := leftEye
    eyeRwidthDefault := rightEye
    eyeLwidthNext := (leftEye : Int)
    eyeRwidthNext := (rightEye : Int) }

def setHeight (s : Eyes) (leftEye rightEye : Nat) : Eyes :=
  { s with
    eyeLheightDefault := leftEye
    eyeRheightDefault := rightEye
    eyeLheightNext := (leftEye : Int)
    eyeRheightNext := (rightEye : Int) }

def setBorderradius (s : Eyes) (leftEye rightEye : Nat) : Eyes :=
  { s with eyeLborderRadius := leftEye, eyeRborderRadius := rightEye }

def setSpacebetween (s : Eyes) (space : Int) : Eyes :=
  { s with spaceBetween := space }

def setMood (s : Eyes) (mood : Nat) : Eyes :=
  { s with currentMood := mood }

/-- The private `getScreenConstraint_X()`: the largest x of the left eye. -/
def getScreenConstraint_X (s : Eyes) : Int :=
  s.screenWidth - s.eyeLwidthCurrent - s.spaceBetween - s.eyeRwidthCurrent

/-- The private `getScreenConstraint_Y()`: the largest y of the eyes. -/
def getScreenConstraint_Y (s : Eyes) : Int :=
  s.screenHeight - (s.eyeLheightDefault : Int)

/-- The left target chosen by the `switch` of `setPosition` (codes `N = 1`, `NE = 2`,
`E = 3`, `SE = 4`, `S = 5`, `SW = 6`, `W = 7`, `NW = 8`, anything else the centre). -/
def positionTarget (s : Eyes) (pos : Nat) : Int × Int :=
  if pos = 1 then (Int.tdiv (getScreenConstraint_X s) 2, 0)
  else if pos = 2 then (getScreenConstraint_X s, 0)
  else if pos = 3 then (getScreenConstraint_X s, Int.tdiv (getScreenConstraint_Y s) 2)
  else if pos = 4 then (getScreenConstraint_X s, getScreenConstraint_Y s)
  else if pos = 5 then (Int.tdiv (getScreenConstraint_X s) 2, getScreenConstraint_Y s)
  else if pos = 6 then (0, getScreenConstraint_Y s)
  else if pos = 7 then (0, Int.tdiv (getScreenConstraint_Y s) 2)
  else if pos = 8 then (0, 0)
  else (Int.tdiv (getScreenConstraint_X s) 2, Int.tdiv (getScreenConstraint_Y s) 2)

def setPosition (s : Eyes) (pos : Nat) : Eyes :=
  let p := positionTarget s pos
  { s with
    eyeLxNext := p.1
    eyeLyNext := p.2
    eyeRxNext := p.1 + s.eyeLwidthCurrent + s.spaceBetween
    eyeRyNext := p.2 }

def setCyclops (s : Eyes) (enabled : Bool) : Eyes :=
  { s with cyclops := enabled }

def setCuriosity (s : Eyes) (enabled : Bool) : Eyes :=
  { s with curious := enabled }

/-- The member function `setAutoblinker`; `now` is the reading of `millis()` and `rnd` the
value of `random(-autoBlinkerVariation, autoBlinkerVariation)`, both used only when
`active`. -/
def setAutoblinker (s : Eyes) (active : Bool) (interval variation : Int) (now : Nat)
    (rnd : Int) : Eyes :=
  let s1 := { s with
    autoBlinkerEnabled := active
    autoBlinkerInterval := interval * 1000
    autoBlinkerVariation := variation * 1000 }
  if active then
    { s1 with
      lastBlink := now
      nextBlinkTime := wrap32 ((now : Int) + s1.autoBlinkerInterval + rnd) }
  else s1

/-- The member function `setIdleMode`, with the same inputs as `setAutoblinker`. -/
def setIdleMode (s : Eyes) (active : Bool) (interval variation : Int) (now : Nat)
    (rnd : Int) : Eyes :=
  let s1 := { s with
    idleModeEnabled := active
    idleModeInterval := interval * 1000
    idleModeVariation := variation * 1000 }
  if active then
    { s1 with
      lastIdle := now
      nextIdleTime := wrap32 ((now : Int) + s1.idleModeInterval + rnd) }
  else s1

def blink (s : Eyes) : Eyes :=
  if !s.isBlinking then { s with isBlinking := true, blinkPhase := 1 } else s

/-- The member function `open()`. -/
def openEyes (s : Eyes) : Eyes :=
  { s with
    eyeL_open := true
    eyeR_open := true
    eyeLheightNext := (s.eyeLheightDefault : Int)
    eyeRheightNext := (s.eyeRheightDefault : Int) }

/-- The member function `close()`. -/
def close (s : Eyes) : Eyes :=
  { s with
    eyeL_open := false
    eyeR_open := false
    eyeLheightNext := 0
    eyeRheightNext := 0 }

/-! ## The tick -/

/-- The private `smoothTransitions()`: eight easing assignments. -/
def smoothTransitions (s : Eyes) : Eyes :=
  { s with
    eyeLx := easeStep s.eyeLx s.eyeLxNext
    eyeLy := easeStep s.eyeLy s.eyeLyNext
    eyeRx := easeStep s.eyeRx s.eyeRxNext
    eyeRy := easeStep s.eyeRy s.eyeRyNext
    eyeLwidthCurrent := easeStep s.eyeLwidthCurrent s.eyeLwidthNext
    eyeLheightCurrent := easeStep s.eyeLheightCurrent s.eyeLheightNext
    eyeRwidthCurrent := easeStep s.eyeRwidthCurrent s.eyeRwidthNext
    eyeRheightCurrent := easeStep s.eyeRheightCurrent s.eyeRheightNext }

/-- The `switch (currentMood)` of `applyMood()` (`MOOD_TIRED = 1`, `MOOD_ANGRY = 2`,
`MOOD_HAPPY = 3`, `MOOD_DEFAULT = 0` and any other value). -/
def moodHeights (s : Eyes) : Eyes :=
  if s.currentMood = 3 then
    { s with
      eyeLheightNext := (s.eyeLheightDefault : Int) - 10
      eyeRheightNext := (s.eyeRheightDefault : Int) - 10 }
  else if s.currentMood = 1 then
    { s with
      eyeLheightNext := (s.eyeLheightDefault : Int) - 15
      eyeRheightNext := (s.eyeRheightDefault : Int) - 15 }
  else if s.currentMood = 2 then s
  else if !s.isBlinking then
    { s with
      eyeLheightNext := (s.eyeLheightDefault : Int)
      eyeRheightNext := (s.eyeRheightDefault : Int) }
  else s

/-- The curiosity part of `applyMood()`. -/
def curiosityWidths (s : Eyes) : Eyes :=
  if s.curious then
    if s.eyeLxNext ≤ 10 ∨ s.eyeLxNext ≥ getScreenConstraint_X s - 10 then
      { s with
        eyeLwidthNext := (s.eyeLwidthDefault : Int) + 8
        eyeRwidthNext := (s.eyeRwidthDefault : Int) + 8 }
    else
      { s with
        eyeLwidthNext := (s.eyeLwidthDefault : Int)
        eyeRwidthNext := (s.eyeRwidthDefault : Int) }
  else
    { s with
      eyeLwidthNext := (s.eyeLwidthDefault : Int)
      eyeRwidthNext := (s.eyeRwidthDefault : Int) }

/-- The private `applyMood()`. -/
def applyMood (s : Eyes) : Eyes := curiosityWidths (moodHeights s)

/-- The private `drawSingleEye(gfx, x, y, width, height, borderRadius)`. -/
def drawSingleEye (s : Eyes) (gfx : Surface) (x y width height borderRadius : Int) :
    List DrawCmd :=
  if height ≤ 0 then []
  else
    let eye := DrawCmd.fillRoundRect gfx x y width height borderRadius s.fgColor
    let eyelidHeight := Int.tdiv height 2
    let half := Int.tdiv width 2
    if s.currentMood = 1 then
      if s.cyclops then
        [eye,
         DrawCmd.fillTriangle gfx x (y - 1) (x + half) (y - 1) x (y + eyelidHeight - 1) s.bgColor,
         DrawCmd.fillTriangle gfx (x + half) (y - 1) (x + width) (y - 1) (x + width)
           (y + eyelidHeight - 1) s.bgColor]
      else
        [eye,
         DrawCmd.fillTriangle gfx x (y - 1) (x + width) (y - 1) x (y + eyelidHeight - 1) s.bgColor]
    else if s.currentMood = 2 then
      if s.cyclops then
        [eye,
         DrawCmd.fillTriangle gfx x (y - 1) (x + half) (y - 1) (x + half)
           (y + eyelidHeight - 1) s.bgColor,
         DrawCmd.fillTriangle gfx (x + half) (y - 1) (x + width) (y - 1) (x + half)
           (y + eyelidHeight - 1) s.bgColor]
      else
        [eye,
         DrawCmd.fillTriangle gfx x (y - 1) (x + width) (y - 1) (x + width)
           (y + eyelidHeight - 1) s.bgColor]
    else if s.currentMood = 3 then
      [eye,
       DrawCmd.fillRoundRect gfx (x - 1) (y + height - eyelidHeight + 1) (width + 2) height
         borderRadius s.bgColor]
    else [eye]

/-- The eyes drawn on one surface: the centred single eye in cyclops mode, the two eyes
at their positions otherwise. -/
def drawBoth (s : Eyes) (gfx : Surface) : List DrawCmd :=
  if s.cyclops then
    drawSingleEye s gfx
      (Int.tdiv s.screenWidth 2 - Int.tdiv s.eyeLwidthCurrent 2)
      (Int.tdiv s.screenHeight 2 - Int.tdiv s.eyeLheightCurrent 2)
      s.eyeLwidthCurrent s.eyeLheightCurrent (s.eyeLborderRadius : Int)
  else
    drawSingleEye s gfx s.eyeLx s.eyeLy s.eyeLwidthCurrent s.eyeLheightCurrent
        (s.eyeLborderRadius : Int)
      ++ drawSingleEye s gfx s.eyeRx s.eyeRy s.eyeRwidthCurrent s.eyeRheightCurrent
        (s.eyeRborderRadius : Int)

/-- The private `drawEyes()`: through the sprite when there is one, directly otherwise. -/
def drawEyes (s : Eyes) : List DrawCmd :=
  if s.useSprite then
    DrawCmd.fillScreen Surface.sprite s.bgColor :: drawBoth s Surface.sprite
      ++ [DrawCmd.drawRGBBitmap 0 0 s.screenWidth s.screenHeight]
  else
    DrawCmd.fillScreen Surface.display s.bgColor :: drawBoth s Surface.display

/-- The frame-rate test of `update()`: `currentTime - fpsTimer < frameInterval`, an
`unsigned long` comparison (the `int` interval is converted). -/
def gateBlocks (s : Eyes) (now : Nat) : Bool :=
  decide (wrap32 ((now : Int) - (s.fpsTimer : Int)) < wrap32 s.frameInterval)

/-- The condition of the auto-blinker branch. -/
def autoBlinkFires (s : Eyes) (now : Nat) : Bool :=
  s.autoBlinkerEnabled && decide (s.nextBlinkTime ≤ now) && !s.isBlinking

/-- The auto-blinker branch of `update()`. -/
def autoBlinkStep (s : Eyes) (now : Nat) (d : Draws) : Eyes :=
  if autoBlinkFires s now then
    { blink s with
      nextBlinkTime := wrap32 ((now : Int) + s.autoBlinkerInterval + d.blinkJitter) }
  else s

/-- The condition of the idle-mode branch. -/
def idleFires (s : Eyes) (now : Nat) : Bool :=
  s.idleModeEnabled && decide (s.nextIdleTime ≤ now)

/-- The idle-mode branch of `update()`. -/
def idleStep (s : Eyes) (now : Nat) (d : Draws) : Eyes :=
  if idleFires s now then
    { s with
      eyeLxNext := d.idleX
      eyeLyNext := d.idleY
      eyeRxNext := d.idleX + s.eyeLwidthCurrent + s.spaceBetween
      eyeRyNext := d.idleY
      nextIdleTime := wrap32 ((now : Int) + s.idleModeInterval + d.idleJitter) }
  else s

/-- The blink state machine of `update()`. -/
def blinkStep (s : Eyes) : Eyes :=
  if s.isBlinking then
    if s.blinkPhase = 1 then
      { s with
        eyeLheightNext := 0
        eyeRheightNext := 0
        blinkPhase := if s.eyeLheightCurrent ≤ 2 then 2 else s.blinkPhase }
    else if s.blinkPhase = 2 then { s with blinkPhase := 3 }
    else if s.blinkPhase = 3 then
      if s.eyeLheightCurrent ≥ (s.eyeLheightDefault : Int) - 2 then
        { s with
          eyeLheightNext := (s.eyeLheightDefault : Int)
          eyeRheightNext := (s.eyeRheightDefault : Int)
          blinkPhase := 0
          isBlinking := false }
      else
        { s with
          eyeLheightNext := (s.eyeLheightDefault : Int)
          eyeRheightNext := (s.eyeRheightDefault : Int) }
    else s
  else s

/-- The part of `update()` after the frame-rate gate, up to and including `applyMood()`. -/
def tickBody (s : Eyes) (now : Nat) (d : Draws) : Eyes :=
  applyMood (smoothTransitions (blinkStep
    (idleStep (autoBlinkStep { s with fpsTimer := now } now d) now d)))

/-- The member function `update()`; `now` is the reading of `millis()`. -/
def update (s : Eyes) (now : Nat) (d : Draws) : UpdateResult :=
  if gateBlocks s now then ⟨s, 0, []⟩
  else
    let s1 := { s with fpsTimer := now }
    let s2 := autoBlinkStep s1 now d
    ⟨tickBody s now d,
     (if autoBlinkFires s1 now then 1 else 0) + (if idleFires s2 now then 3 else 0),
     drawEyes (tickBody s now d)⟩

/-! ## The canned animations -/

/-- The loop `for (j = 0; j < n; j++) { update(); delay(20); }`: the call number `k`
of the animation uses the inputs `ticks k`. -/
def updates (ticks : Nat → Nat × Draws) : Nat → Nat → Eyes → Eyes
  | 0, _, s => s
  | n + 1, k, s => updates ticks n (k + 1) (update s (ticks k).1 (ticks k).2).st

/-- One round of the loop of `anim_confused()`, starting at call number `k`. -/
def confusedRound (ticks : Nat → Nat × Draws) (centerX : Int) (k : Nat) (s : Eyes) : Eyes :=
  let a := { s with
    eyeLxNext := centerX + 20
    eyeRxNext := centerX + 20 + s.eyeLwidthCurrent + s.spaceBetween }
  let b := updates ticks 5 k a
  let c := { b with
    eyeLxNext := centerX - 20
    eyeRxNext := centerX - 20 + b.eyeLwidthCurrent + b.spaceBetween }
  updates ticks 5 (k + 5) c

def anim_confused (s : Eyes) (ticks : Nat → Nat × Draws) : Eyes :=
  let centerX := Int.tdiv (getScreenConstraint_X s) 2
  let s3 := confusedRound ticks centerX 20 (confusedRound ticks centerX 10
    (confusedRound ticks centerX 0 s))
  { s3 with
    eyeLxNext := centerX
    eyeRxNext := centerX + s3.eyeLwidthCurrent + s3.spaceBetween }

/-- One round of the loop of `anim_laugh()`, starting at call number `k`. -/
def laughRound (ticks : Nat → Nat × Draws) (centerY : Int) (k : Nat) (s : Eyes) : Eyes :=
  let a := { s with eyeLyNext := centerY - 15, eyeRyNext := centerY - 15 }
  let b := updates ticks 5 k a
  let c := { b with eyeLyNext := centerY + 15, eyeRyNext := centerY + 15 }
  updates ticks 5 (k + 5) c

def anim_laugh (s : Eyes) (ticks : Nat → Nat × Draws) : Eyes :=
  let centerY := Int.tdiv (getScreenConstraint_Y s) 2
  let s3 := laughRound ticks centerY 20 (laughRound ticks centerY 10
    (laughRound ticks centerY 0 s))
  { s3 with eyeLyNext := centerY, eyeRyNext := centerY }

/-! ## Sequences of public calls -/

/-- A call of a public member function, with the clock readings and random values it
meets. -/
inductive Call where
  | begin (width height : Int) (maxFramerate : Nat) (now : Nat) (spriteOk : Bool)
  | setWidth (leftEye rightEye : Nat)
  | setHeight (leftEye rightEye : Nat)
  | setBorderradius (leftEye rightEye : Nat)
  | setSpacebetween (space : Int)
  | setMood (mood : Nat)
  | setPosition (pos : Nat)
  | setCyclops (enabled : Bool)
  | setCuriosity (enabled : Bool)
  | setAutoblinker (active : Bool) (interval variation : Int) (now : Nat) (rnd : Int)
  | setIdleMode (active : Bool) (interval variation : Int) (now : Nat) (rnd : Int)
  | blink
  | openEyes
  | close
  | anim_confused (ticks : Nat → Nat × Draws)
  | anim_laugh (ticks : Nat → Nat × Draws)
  | update (now : Nat) (d : Draws)

/-- The state after one public call (`none` when the call has no result). -/
def step (s : Eyes) : Call → Option Eyes
  | Call.begin w h f now ok => begin s w h f now ok
  | Call.setWidth l r => some (setWidth s l r)
  | Call.setHeight l r => some (setHeight s l r)
  | Call.setBorderradius l r => some (setBorderradius s l r)
  | Call.setSpacebetween sp => some (setSpacebetween s sp)
  | Call.setMood m => some (setMood s m)
  | Call.setPosition p => some (setPosition s p)
  | Call.setCyclops b => some (setCyclops s b)
  | Call.setCuriosity b => some (setCuriosity s b)
  | Call.setAutoblinker a i v now rnd => some (setAutoblinker s a i v now rnd)
  | Call.setIdleMode a i v now rnd => some (setIdleMode s a i v now rnd)
  | Call.blink => some (blink s)
  | Call.openEyes => some (openEyes s)
  | Call.close => some (close s)
  | Call.anim_confused ticks => some (anim_confused s ticks)
  | Call.anim_laugh ticks => some (anim_laugh s ticks)
  | Call.update now d => some (update s now d).st

/-- The state after a sequence of public calls, each of which must be admitted by `ok`
in the state it is made in. -/
def runWhile (ok : Eyes → Call → Bool) : Eyes → List Call → Option Eyes
  | s, [] => some s
  | s, c :: cs =>
    if ok s c then
      match step s c with
      | some s1 => runWhile ok s1 cs
      | none => none
    else none

/-- The state after an arbitrary sequence of public calls. -/
def run (s : Eyes) (cs : List Call) : Option Eyes := runWhile (fun _ _ => true) s cs

/-- A storage content with every member zero, for concrete instances. -/
def zeroEyes : Eyes :=
  { useSprite := false, screenWidth := 0, screenHeight := 0, frameInterval := 0,
    fpsTimer := 0, eyeLwidthDefault := 0, eyeLheightDefault := 0, eyeRwidthDefault := 0,
    eyeRheightDefault := 0, eyeLborderRadius := 0, eyeRborderRadius := 0, spaceBetween := 0,
    eyeLwidthCurrent := 0, eyeLheightCurrent := 0, eyeRwidthCurrent := 0,
    eyeRheightCurrent := 0, eyeLwidthNext := 0, eyeLheightNext := 0, eyeRwidthNext := 0,
    eyeRheightNext := 0, eyeLx := 0, eyeLy := 0, eyeRx := 0, eyeRy := 0, eyeLxNext := 0,
    eyeLyNext := 0, eyeRxNext := 0, eyeRyNext := 0, eyeLxDefault := 0, eyeLyDefault := 0,
    eyeRxDefault := 0, eyeRyDefault := 0, eyeL_open := false, eyeR_open := false,
    currentMood := 0, curious := false, cyclops := false, autoBlinkerEnabled := false,
    autoBlinkerInterval := 0, autoBlinkerVariation := 0, lastBlink := 0, nextBlinkTime := 0,
    idleModeEnabled := false, idleModeInterval := 0, idleModeVariation := 0, lastIdle := 0,
    nextIdleTime := 0, isBlinking := false, blinkPhase := 0, prevLeftEyeX := 0,
    prevLeftEyeY := 0, prevRightEyeX := 0, prevRightEyeY := 0, prevLeftWidth := 0,
    prevLeftHeight := 0, prevRightWidth := 0, prevRightHeight := 0, firstDraw := false,
    bgColor := 0, fgColor := 0 }

/-- A freshly constructed instance. -/
def fresh : Eyes := construct zeroEyes

/-- Random values that are all zero. -/
def noDraws : Draws := ⟨0, 0, 0, 0⟩

/-- The state `s` with the left target moved to `(x, y)` and the right target following
it at the distance `eyeLwidthCurrent + spaceBetween`; nothing else differs from `s`. -/
def withTargets (s : Eyes) (x y : Int) : Eyes :=
  { s with
    eyeLxNext := x
    eyeLyNext := y
    eyeRxNext := x + s.eyeLwidthCurrent + s.spaceBetween
    eyeRyNext := y }

/-- Magnitudes up to `2^21`: every coordinate and size of a display. -/
def ScreenSized (z : Int) : Prop := z.natAbs ≤ 2097152

instance (z : Int) : Decidable (ScreenSized z) := by
  unfold ScreenSized
  infer_instance

/-- A 240x240 instance whose idle wander is enabled and due. -/
def idleDue : Eyes :=
  { fresh with screenWidth := 240, screenHeight := 240, idleModeEnabled := true }

/-- All eight eased members and their targets are screen-sized. -/
def GeometryScreenSized (s : Eyes) : Prop :=
  ScreenSized s.eyeLx ∧ ScreenSized s.eyeLxNext ∧ ScreenSized s.eyeLy ∧
    ScreenSized s.eyeLyNext ∧ ScreenSized s.eyeRx ∧ ScreenSized s.eyeRxNext ∧
    ScreenSized s.eyeRy ∧ ScreenSized s.eyeRyNext ∧
    ScreenSized s.eyeLwidthCurrent ∧ ScreenSized s.eyeLwidthNext ∧
    ScreenSized s.eyeLheightCurrent ∧ ScreenSized s.eyeLheightNext ∧
    ScreenSized s.eyeRwidthCurrent ∧ ScreenSized s.eyeRwidthNext ∧
    ScreenSized s.eyeRheightCurrent ∧ ScreenSized s.eyeRheightNext

instance (s : Eyes) : Decidable (GeometryScreenSized s) := by
  unfold GeometryScreenSized
  infer_instance

/-- Every eased member equals its target. -/
def AtTargets (s : Eyes) : Prop :=
  s.eyeLx = s.eyeLxNext ∧ s.eyeLy = s.eyeLyNext ∧ s.eyeRx = s.eyeRxNext ∧
    s.eyeRy = s.eyeRyNext ∧ s.eyeLwidthCurrent = s.eyeLwidthNext ∧
    s.eyeLheightCurrent = s.eyeLheightNext ∧ s.eyeRwidthCurrent = s.eyeRwidthNext ∧
    s.eyeRheightCurrent = s.eyeRheightNext

instance (s : Eyes) : Decidable (AtTargets s) := by
  unfold AtTargets
  infer_instance

/-- An integer that single precision represents exactly: the conversion `int → float`
does not change it.  Every integer of magnitude up to `2^24` is one
(`exact_of_natAbs_le`). -/
def Exact (v : Int) : Prop := roundInt v = v

instance (v : Int) : Decidable (Exact v) := by
  unfold Exact
  infer_instance

/-- Every eased member is an integer that single precision represents exactly. -/
def GeometryExact (s : Eyes) : Prop :=
  Exact s.eyeLx ∧ Exact s.eyeLy ∧ Exact s.eyeRx ∧ Exact s.eyeRy ∧
    Exact s.eyeLwidthCurrent ∧ Exact s.eyeLheightCurrent ∧ Exact s.eyeRwidthCurrent ∧
    Exact s.eyeRheightCurrent

instance (s : Eyes) : Decidable (GeometryExact s) := by
  unfold GeometryExact
  infer_instance

/-- A state at rest whose left eye sits at x = 16777217 = 2^24 + 1. -/
def farAway : Eyes := { zeroEyes with eyeLx := 16777217, eyeLxNext := 16777217 }

/-- A fresh instance after `begin(240, 240, 30)` at time 0. -/
def begun : Eyes :=
  { fresh with
    screenWidth := 240
    screenHeight := 240
    frameInterval := 33
    fpsTimer := 0
    eyeLxDefault := 79
    eyeLyDefault := 102
    eyeRxDefault := 125
    eyeRyDefault := 102
    eyeLx := 79
    eyeLy := 102
    eyeRx := 125
    eyeRy := 102
    eyeLxNext := 79
    eyeLyNext := 102
    eyeRxNext := 125
    eyeRyNext := 102
    useSprite := true }

/-- The vertical half of the rigid-pair relation: the right eye has the left eye's y, for
the target and for the drawn position. -/
def RigidY (s : Eyes) : Prop := s.eyeRyNext = s.eyeLyNext ∧ s.eyeRy = s.eyeLy

instance (s : Eyes) : Decidable (RigidY s) := by
  unfold RigidY
  infer_instance

/-- Clock readings 33 ms apart and no randomness, for the canned animations. -/
def steadyTicks (k : Nat) : Nat × Draws := (33 * (k + 1), noDraws)

/-- The calls that leave the spacing and the width of the left eye alone: every call of
the public interface except `begin`, `setWidth`, `setSpacebetween`, `setBorderradius`,
`setCuriosity(true)` and the two animations. -/
def keepsOffset : Call → Bool
  | Call.setHeight _ _ => true
  | Call.setMood _ => true
  | Call.setPosition _ => true
  | Call.setCyclops _ => true
  | Call.setCuriosity enabled => !enabled
  | Call.setAutoblinker _ _ _ _ _ => true
  | Call.setIdleMode _ _ _ _ _ => true
  | Call.blink => true
  | Call.openEyes => true
  | Call.close => true
  | Call.update _ _ => true
  | _ => false

/-- The pair at its constructed width (36) with curiosity off, the right target at the
rigid offset from the left target. -/
def PairAtRest (s : Eyes) : Prop :=
  s.eyeLwidthCurrent = 36 ∧ s.eyeLwidthNext = 36 ∧ s.eyeLwidthDefault = 36 ∧
    s.curious = false ∧ s.eyeRxNext = s.eyeLxNext + s.eyeLwidthCurrent + s.spaceBetween

/-- A blink in progress on eyes of the constructed height (36) in the default mood:
closing with the height in `[0, 36]`, closed with the height in `[0, 2]` and the target
0, or opening with the height in `[0, 32]`. -/
def BlinkInProgress (s : Eyes) : Prop :=
  s.isBlinking = true ∧ s.currentMood = 0 ∧ s.eyeLheightDefault = 36 ∧
    ((s.blinkPhase = 1 ∧ 0 ≤ s.eyeLheightCurrent ∧ s.eyeLheightCurrent ≤ 36) ∨
     (s.blinkPhase = 2 ∧ 0 ≤ s.eyeLheightCurrent ∧ s.eyeLheightCurrent ≤ 2 ∧
        s.eyeLheightNext = 0) ∨
     (s.blinkPhase = 3 ∧ 0 ≤ s.eyeLheightCurrent ∧ s.eyeLheightCurrent ≤ 32))

/-- The same blink between the blink state machine and the easing of one tick: the
height target is now the one the phase forces. -/
def BlinkEasing (s : Eyes) : Prop :=
  s.isBlinking = true ∧ s.currentMood = 0 ∧ s.eyeLheightDefault = 36 ∧
    ((s.blinkPhase = 1 ∧ s.eyeLheightNext = 0 ∧ 0 ≤ s.eyeLheightCurrent ∧
        s.eyeLheightCurrent ≤ 36) ∨
     (s.blinkPhase = 2 ∧ s.eyeLheightNext = 0 ∧ 0 ≤ s.eyeLheightCurrent ∧
        s.eyeLheightCurrent ≤ 2) ∨
     (s.blinkPhase = 3 ∧ s.eyeLheightNext = 0 ∧ 0 ≤ s.eyeLheightCurrent ∧
        s.eyeLheightCurrent ≤ 2) ∨
     (s.blinkPhase = 3 ∧ s.eyeLheightNext = 36 ∧ 0 ≤ s.eyeLheightCurrent ∧
        s.eyeLheightCurrent ≤ 32))

/-- The `update()` calls of a list of clock readings and random values. -/
def updateCalls (ins : List (Nat × Draws)) : List Call :=
  ins.map (fun i => Call.update i.1 i.2)

/-- Forty clock readings 33 ms apart, starting at 33 ms, with no randomness. -/
def fortyTicks : List (Nat × Draws) :=
  (List.range 40).map (fun k => (33 * (k + 1), noDraws))

/-- The members that no part of the tick assigns and that the mood pass reads; `a` has
them as `b` has. -/
def SameSetup (a b : Eyes) : Prop :=
  a.currentMood = b.currentMood ∧ a.eyeLheightDefault = b.eyeLheightDefault ∧
    a.eyeRheightDefault = b.eyeRheightDefault ∧ a.eyeL_open = b.eyeL_open ∧
    a.eyeR_open = b.eyeR_open

/-- The begun instance in the happy mood, just after `blink()`: closing. -/
def happyClosing : Eyes := setMood (blink begun) 3

/-- The begun instance with the auto-blinker switched on at time 0 with the interval 3 s
and the random offset 0: the first blink is due at 3000 ms. -/
def blinkDue : Eyes := setAutoblinker begun true 3 2 0 0

/-- The colour of a drawing call, when it has one. -/
def DrawCmd.color : DrawCmd → Option Nat
  | DrawCmd.fillScreen _ c => some c
  | DrawCmd.fillRoundRect _ _ _ _ _ _ c => some c
  | DrawCmd.fillTriangle _ _ _ _ _ _ _ c => some c
  | DrawCmd.drawRGBBitmap _ _ _ _ => none

/-- The pixel `(px, py)` lies in the bounding box of a rounded rectangle:
`fillRoundRect(x, y, w, h, ..)` spans the columns `x .. x + w - 1` and the rows
`y .. y + h - 1`. -/
def boxContains (c : DrawCmd) (px py : Int) : Prop :=
  match c with
  | DrawCmd.fillRoundRect _ x y w h _ _ => x ≤ px ∧ px < x + w ∧ y ≤ py ∧ py < y + h
  | _ => False

instance (c : DrawCmd) (px py : Int) : Decidable (boxContains c px py) := by
  unfold boxContains
  split <;> infer_instance

/-- The blinking flag and the blink phase agree: not blinking in phase 0, blinking in
the phases 1, 2 and 3. -/
def PhaseAgrees (s : Eyes) : Prop :=
  (s.isBlinking = false ∧ s.blinkPhase = 0) ∨
    (s.isBlinking = true ∧ (s.blinkPhase = 1 ∨ s.blinkPhase = 2 ∨ s.blinkPhase = 3))

instance (s : Eyes) : Decidable (PhaseAgrees s) := by
  unfold PhaseAgrees
  infer_instance

/-- The blink phases before and after one call of `update()` that are related by a step
of the blink: the auto-blinker starting a blink (0 to 1, or 0 to 2 when the eye is
already at most 2 high), closing done (1 to 2), the pause (2 to 3), opening done
(3 to 0). -/
def PhaseStep (p q : Int) : Prop :=
  (p = 0 ∧ q = 1) ∨ (p = 0 ∧ q = 2) ∨ (p = 1 ∧ q = 2) ∨ (p = 2 ∧ q = 3) ∨ (p = 3 ∧ q = 0)

instance (p q : Int) : Decidable (PhaseStep p q) := by
  unfold PhaseStep
  infer_instance

/-! # Theorems -/

/-! ## The easing step in single precision -/

theorem normShift_spec (fuel n : Nat) (h : n ≤ fuel) :
    n < 16777216 * 2 ^ normShift fuel n ∧
      (normShift fuel n = 0 ∨ 8388608 * 2 ^ normShift fuel n ≤ n) := by
  induction fuel generalizing n with
  | zero =>
    have h0 : n = 0 := by omega
    subst h0
    simp [normShift]
  | succ f ih =>
    unfold normShift
    split_ifs with hlt
    · simp
      omega
    · obtain ⟨h1, h2⟩ := ih (n / 2) (by omega)
      have hp : 2 ^ (normShift f (n / 2) + 1) = 2 * 2 ^ normShift f (n / 2) := by ring
      rw [hp]
      refine ⟨by omega, Or.inr ?_⟩
      rcases h2 with h0 | h3
      · rw [h0]
        simp
        omega
      · omega

theorem normShift_le (n k : Nat) (h : n < 16777216 * 2 ^ k) : normShift n n ≤ k := by
  obtain ⟨_, h2⟩ := normShift_spec n n le_rfl
  rcases h2 with h0 | h3
  · omega
  · have hlt : 2 ^ normShift n n < 2 ^ (k + 1) := by
      have hp : 2 ^ (k + 1) = 2 * 2 ^ k := by ring
      omega
    have := (Nat.pow_lt_pow_iff_right (by norm_num : 1 < 2)).mp hlt
    omega

/-- Rounding to the nearest multiple of `P`, ties to even. -/
theorem nearest_bounds (n P : Nat) (hP : 0 < P) :
    2 * n ≤ 2 * (if P < 2 * (n % P) ∨ (2 * (n % P) = P ∧ n / P % 2 = 1)
        then (n / P + 1) * P else n / P * P) + P ∧
      2 * (if P < 2 * (n % P) ∨ (2 * (n % P) = P ∧ n / P % 2 = 1)
        then (n / P + 1) * P else n / P * P) ≤ 2 * n + P := by
  have hdm := Nat.div_add_mod n P
  have hlt := Nat.mod_lt n hP
  have hc := Nat.mul_comm P (n / P)
  have hs : (n / P + 1) * P = n / P * P + P := by ring
  split_ifs with hr
  · rw [hs]
    omega
  · omega

theorem nearest_unique (n P a : Nat) (hP : 0 < P)
    (h1 : 2 * n < 2 * (a * P) + P) (h2 : 2 * (a * P) < 2 * n + P) :
    (if P < 2 * (n % P) ∨ (2 * (n % P) = P ∧ n / P % 2 = 1)
        then (n / P + 1) * P else n / P * P) = a * P := by
  by_cases hle : a * P ≤ n
  · have hc := Nat.mul_comm P a
    have hu := (Nat.div_mod_unique hP).mpr
      ⟨(by omega : (n - a * P) + P * a = n), (by omega : n - a * P < P)⟩
    rw [hu.1, hu.2, if_neg]
    omega
  · cases a with
    | zero => omega
    | succ b =>
      have hs : (b + 1) * P = b * P + P := by ring
      rw [hs] at h1 h2 hle ⊢
      have hc := Nat.mul_comm P b
      have hu := (Nat.div_mod_unique hP).mpr
        ⟨(by omega : (n - b * P) + P * b = n), (by omega : n - b * P < P)⟩
      rw [hu.1, hu.2, if_pos]
      · ring
      · left
        omega

theorem roundNat_near (n : Nat) :
    2 * n ≤ 2 * roundNat n + 2 ^ normShift n n ∧
      2 * roundNat n ≤ 2 * n + 2 ^ normShift n n :=
  nearest_bounds n (2 ^ normShift n n) (Nat.pow_pos (by norm_num))

theorem roundNat_eq_of_near (n a : Nat)
    (h1 : 2 * n < 2 * (a * 2 ^ normShift n n) + 2 ^ normShift n n)
    (h2 : 2 * (a * 2 ^ normShift n n) < 2 * n + 2 ^ normShift n n) :
    roundNat n = a * 2 ^ normShift n n :=
  nearest_unique n (2 ^ normShift n n) a (Nat.pow_pos (by norm_num)) h1 h2

/-- Rounding error of a magnitude below `2^(24+k)`: at most half of `2^k`. -/
theorem roundNat_err (n k : Nat) (h : n < 16777216 * 2 ^ k) :
    2 * n ≤ 2 * roundNat n + 2 ^ k ∧ 2 * roundNat n ≤ 2 * n + 2 ^ k := by
  have hle : 2 ^ normShift n n ≤ 2 ^ k :=
    Nat.pow_le_pow_right (by norm_num) (normShift_le n k h)
  have := roundNat_near n
  omega

/-- A multiple of `2^26` that is close enough to `n` is what `n` rounds to. -/
theorem roundNat_eq_mul (n a : Nat) (hn : n < 16777216 * 2 ^ 26)
    (h1 : 2 * n < 2 * (a * 2 ^ 26) + 2 ^ normShift n n)
    (h2 : 2 * (a * 2 ^ 26) < 2 * n + 2 ^ normShift n n) :
    roundNat n = a * 2 ^ 26 := by
  have hk := normShift_le n 26 hn
  have hsplit : a * 2 ^ 26 = (a * 2 ^ (26 - normShift n n)) * 2 ^ normShift n n := by
    rw [Nat.mul_assoc, ← Nat.pow_add, Nat.sub_add_cancel hk]
  rw [hsplit] at h1 h2 ⊢
  exact roundNat_eq_of_near n _ h1 h2

theorem roundInt_err (z : Int) (k : Nat) (h : z.natAbs < 16777216 * 2 ^ k) :
    2 * z ≤ 2 * roundInt z + 2 ^ k ∧ 2 * roundInt z ≤ 2 * z + 2 ^ k := by
  obtain ⟨h1, h2⟩ := roundNat_err z.natAbs k h
  have e1 : ((2 ^ k : Nat) : Int) = 2 ^ k := by push_cast; rfl
  unfold roundInt
  split_ifs with hz <;> omega

theorem roundInt_exact (z : Int) (h : z.natAbs < 16777216) : roundInt z = z := by
  have := roundInt_err z 0 (by simpa using h)
  omega

theorem roundInt_of_natAbs (z w : Int) (h : roundNat z.natAbs = w.natAbs)
    (hneg : z < 0 → w ≤ 0) (hpos : 0 ≤ z → 0 ≤ w) : roundInt z = w := by
  unfold roundInt
  split_ifs with hz
  · have := hneg hz
    omega
  · have := hpos (by omega)
    omega

/-- An integer multiple of `2^26` with a 24-bit factor is a binary32 value. -/
theorem roundInt_shifted (a : Int) (h : a.natAbs < 16777216) :
    roundInt (a * 67108864) = a * 67108864 := by
  apply roundInt_of_natAbs
  · have hn : (a * 67108864).natAbs = a.natAbs * 2 ^ 26 := by
      rw [Int.natAbs_mul]; rfl
    rw [hn]
    have hP : 0 < 2 ^ normShift (a.natAbs * 2 ^ 26) (a.natAbs * 2 ^ 26) :=
      Nat.pow_pos (by norm_num)
    exact roundNat_eq_mul _ _ (by omega) (by omega) (by omega)
  · intro h; exact h.le
  · intro h; exact h

/-- The product of a multiple of five with `0.2f` rounds to the exact fifth. -/
theorem roundInt_fifth (j : Int) (h : j.natAbs < 8388608) :
    roundInt (5 * j * 13421773) = j * 67108864 := by
  apply roundInt_of_natAbs
  · have hn : (5 * j * 13421773).natAbs = j.natAbs * 67108865 := by
      rw [Int.natAbs_mul, Int.natAbs_mul]
      show 5 * j.natAbs * 13421773 = j.natAbs * 67108865
      ring
    have hm : (j * 67108864).natAbs = j.natAbs * 2 ^ 26 := by
      rw [Int.natAbs_mul]; rfl
    rw [hn, hm]
    obtain ⟨hs, _⟩ := normShift_spec (j.natAbs * 67108865) (j.natAbs * 67108865) le_rfl
    exact roundNat_eq_mul _ _ (by omega) (by omega) (by omega)
  · intro h; omega
  · intro h; omega

theorem tdiv_of_nonpos (a b : Int) (ha : a ≤ 0) (hb : 0 ≤ b) :
    a.tdiv b = -((-a) / b) := by
  rw [← Int.tdiv_eq_ediv (by omega : 0 ≤ -a) hb, Int.neg_tdiv, neg_neg]

theorem easeStep_unfold (v t : Int) :
    easeStep v t = Int.tdiv (roundInt (roundInt v * 67108864
      + roundInt (roundInt (t - v) * 13421773))) 67108864 := by
  simp [easeStep, F32.toInt, F32.add, F32.mul, F32.ofInt, F32.round, smoothFactor]

/-- On screen-sized values the single-precision easing step is the exact
`trunc ((4 * cur + next) / 5)`, i.e. `trunc (cur + (next - cur) * 0.2)`. -/
theorem easeStep_eq_tdiv (v t : Int) (hv : v.natAbs ≤ 2097152) (ht : t.natAbs ≤ 2097152) :
    easeStep v t = Int.tdiv (4 * v + t) 5 := by
  rw [easeStep_unfold, roundInt_exact v (by omega), roundInt_exact (t - v) (by omega)]
  by_cases h5 : (t - v) % 5 = 0
  · obtain ⟨j, hj⟩ : ∃ j, t - v = 5 * j := ⟨(t - v) / 5, by omega⟩
    rw [hj, roundInt_fifth j (by omega)]
    have e1 : v * 67108864 + j * 67108864 = (v + j) * 67108864 := by ring
    have e2 : 4 * v + t = (v + j) * 5 := by omega
    rw [e1, roundInt_shifted (v + j) (by omega), e2,
      Int.mul_tdiv_cancel _ (by norm_num), Int.mul_tdiv_cancel _ (by norm_num)]
  · obtain ⟨p1, p2⟩ := roundInt_err ((t - v) * 13421773) 22 (by omega)
    obtain ⟨s1, s2⟩ := roundInt_err (v * 67108864 + roundInt ((t - v) * 13421773)) 24
      (by norm_num at p1 p2 ⊢; omega)
    norm_num at p1 p2 s1 s2
    generalize roundInt (v * 67108864 + roundInt ((t - v) * 13421773)) = s at s1 s2 ⊢
    generalize roundInt ((t - v) * 13421773) = p at p1 p2 s1 s2
    have k1 : 5 * s < 67108864 * (4 * v + t) + 67108864 := by omega
    have k2 : 67108864 * (4 * v + t) < 5 * s + 67108864 := by omega
    have k5 : (4 * v + t) % 5 ≠ 0 := by omega
    clear p1 p2 s1 s2 h5 hv ht
    generalize 4 * v + t = n at k1 k2 k5 ⊢
    rcases Int.lt_or_le n 0 with hn | hn
    · have hs : s ≤ 0 := by omega
      rw [tdiv_of_nonpos s 67108864 hs (by norm_num),
        tdiv_of_nonpos n 5 hn.le (by norm_num)]
      have r1 : (-n) % 5 ≠ 0 := by omega
      have r2 := Int.emod_add_ediv (-n) 5
      have r3 := Int.emod_nonneg (-n) (by norm_num : (5 : Int) ≠ 0)
      have r4 := Int.emod_lt_of_pos (-n) (by norm_num : (0 : Int) < 5)
      generalize (-n) % 5 = r at r1 r2 r3 r4
      generalize (-n) / 5 = q at r2 ⊢
      have a1 : 67108864 * q ≤ -s := by omega
      have a2 : -s < 67108864 * q + 67108864 := by omega
      omega
    · have r2 := Int.emod_add_ediv n 5
      have r3 := Int.emod_nonneg n (by norm_num : (5 : Int) ≠ 0)
      have r4 := Int.emod_lt_of_pos n (by norm_num : (0 : Int) < 5)
      generalize n % 5 = r at k5 r2 r3 r4
      have hs : 0 ≤ s := by omega
      rw [Int.tdiv_eq_ediv hs (by norm_num), Int.tdiv_eq_ediv hn (by norm_num)]
      generalize n / 5 = q at r2 ⊢
      have a1 : 67108864 * q ≤ s := by omega
      have a2 : s < 67108864 * q + 67108864 := by omega
      omega

/-! ## Frames: the members each part of the tick can change -/

theorem autoBlinkStep_frame (s : Eyes) (now : Nat) (d : Draws) :
    autoBlinkStep s now d = { s with
      isBlinking := (autoBlinkStep s now d).isBlinking
      blinkPhase := (autoBlinkStep s now d).blinkPhase
      nextBlinkTime := (autoBlinkStep s now d).nextBlinkTime } := by
  unfold autoBlinkStep blink
  split_ifs <;> rfl

theorem idleStep_frame (s : Eyes) (now : Nat) (d : Draws) :
    idleStep s now d = { s with
      eyeLxNext := (idleStep s now d).eyeLxNext
      eyeLyNext := (idleStep s now d).eyeLyNext
      eyeRxNext := (idleStep s now d).eyeRxNext
      eyeRyNext := (idleStep s now d).eyeRyNext
      nextIdleTime := (idleStep s now d).nextIdleTime } := by
  unfold idleStep
  split_ifs <;> rfl

theorem blinkStep_frame (s : Eyes) :
    blinkStep s = { s with
      eyeLheightNext := (blinkStep s).eyeLheightNext
      eyeRheightNext := (blinkStep s).eyeRheightNext
      blinkPhase := (blinkStep s).blinkPhase
      isBlinking := (blinkStep s).isBlinking } := by
  unfold blinkStep
  split_ifs <;> rfl

theorem moodHeights_frame (s : Eyes) :
    moodHeights s = { s with
      eyeLheightNext := (moodHeights s).eyeLheightNext
      eyeRheightNext := (moodHeights s).eyeRheightNext } := by
  unfold moodHeights
  split_ifs <;> rfl

theorem curiosityWidths_frame (s : Eyes) :
    curiosityWidths s = { s with
      eyeLwidthNext := (curiosityWidths s).eyeLwidthNext
      eyeRwidthNext := (curiosityWidths s).eyeRwidthNext } := by
  unfold curiosityWidths
  split_ifs <;> rfl

theorem applyMood_frame (s : Eyes) :
    applyMood s = { s with
      eyeLheightNext := (applyMood s).eyeLheightNext
      eyeRheightNext := (applyMood s).eyeRheightNext
      eyeLwidthNext := (applyMood s).eyeLwidthNext
      eyeRwidthNext := (applyMood s).eyeRwidthNext } := by
  unfold applyMood
  rw [curiosityWidths_frame, moodHeights_frame]

theorem update_st (s : Eyes) (now : Nat) (d : Draws) :
    (update s now d).st = if gateBlocks s now then s else tickBody s now d := by
  unfold update
  split_ifs <;> rfl

/-! ## The frame-rate gate -/

theorem clock_after_blinkStep (s : Eyes) :
    (blinkStep s).fpsTimer = s.fpsTimer ∧ (blinkStep s).frameInterval = s.frameInterval := by
  rw [blinkStep_frame]
  exact ⟨rfl, rfl⟩

theorem clock_after_idleStep (s : Eyes) (now : Nat) (d : Draws) :
    (idleStep s now d).fpsTimer = s.fpsTimer ∧
      (idleStep s now d).frameInterval = s.frameInterval := by
  rw [idleStep_frame]
  exact ⟨rfl, rfl⟩

theorem clock_after_autoBlinkStep (s : Eyes) (now : Nat) (d : Draws) :
    (autoBlinkStep s now d).fpsTimer = s.fpsTimer ∧
      (autoBlinkStep s now d).frameInterval = s.frameInterval := by
  rw [autoBlinkStep_frame]
  exact ⟨rfl, rfl⟩

theorem clock_after_applyMood (s : Eyes) :
    (applyMood s).fpsTimer = s.fpsTimer ∧ (applyMood s).frameInterval = s.frameInterval := by
  rw [applyMood_frame]
  exact ⟨rfl, rfl⟩

theorem clock_after_tickBody (s : Eyes) (now : Nat) (d : Draws) :
    (tickBody s now d).fpsTimer = now ∧ (tickBody s now d).frameInterval = s.frameInterval := by
  unfold tickBody
  obtain ⟨a1, a2⟩ := clock_after_applyMood (smoothTransitions (blinkStep
    (idleStep (autoBlinkStep { s with fpsTimer := now } now d) now d)))
  obtain ⟨b1, b2⟩ := clock_after_blinkStep
    (idleStep (autoBlinkStep { s with fpsTimer := now } now d) now d)
  obtain ⟨c1, c2⟩ := clock_after_idleStep (autoBlinkStep { s with fpsTimer := now } now d) now d
  obtain ⟨e1, e2⟩ := clock_after_autoBlinkStep { s with fpsTimer := now } now d
  constructor
  · rw [a1]
    show (blinkStep _).fpsTimer = now
    rw [b1, c1, e1]
  · rw [a2]
    show (blinkStep _).frameInterval = s.frameInterval
    rw [b2, c2, e2]

/-- Claim C6 (frame-rate gate).  When `now - fpsTimer < frameInterval` in `unsigned long`
arithmetic, `update()` returns the state it was given, makes no `random` call and issues
no drawing call.  In particular, with a non-zero frame interval, a second `update()` at
the clock reading of an `update()` that passed the gate does nothing. -/
theorem update_gate_is_noop (s : Eyes) (now : Nat) (d : Draws) :
    (wrap32 ((now : Int) - (s.fpsTimer : Int)) < wrap32 s.frameInterval →
        update s now d = ⟨s, 0, []⟩) ∧
      (¬ wrap32 ((now : Int) - (s.fpsTimer : Int)) < wrap32 s.frameInterval →
        0 < wrap32 s.frameInterval →
        ∀ d2 : Draws,
          update (update s now d).st now d2 = ⟨(update s now d).st, 0, []⟩) := by
  constructor
  · intro h
    unfold update gateBlocks
    rw [if_pos (by simpa using h)]
  · intro h hpos d2
    have hst : (update s now d).st = tickBody s now d := by
      rw [update_st]
      unfold gateBlocks
      rw [if_neg (by simpa using h)]
    obtain ⟨t1, t2⟩ := clock_after_tickBody s now d
    rw [hst]
    unfold update gateBlocks
    rw [if_pos]
    rw [t1, t2]
    simpa [wrap32] using hpos

/-- Witness for C6 on a freshly constructed instance (interval 33 ms, timer 0): a call
at 10 ms is blocked, and so is a second call at 40 ms. -/
theorem update_gate_is_noop_witness :
    update fresh 10 noDraws = ⟨fresh, 0, []⟩ ∧
      update (update fresh 40 noDraws).st 40 noDraws = ⟨(update fresh 40 noDraws).st, 0, []⟩ :=
  ⟨(update_gate_is_noop fresh 10 noDraws).1 (by decide),
   (update_gate_is_noop fresh 40 noDraws).2 (by decide) (by decide) noDraws⟩

/-- What `begin` assigns to the positions, in terms of the members it reads. -/
theorem begin_defaults (s : Eyes) (W H : Int) (fps now : Nat) (ok : Bool) (hf : fps ≠ 0) :
    ∃ b, begin s W H fps now ok = some b ∧
      b.eyeLxDefault = Int.tdiv (W - ((s.eyeLwidthDefault : Int) + s.spaceBetween
        + (s.eyeRwidthDefault : Int))) 2 ∧
      b.eyeLyDefault = Int.tdiv (H - (s.eyeLheightDefault : Int)) 2 ∧
      b.eyeRxDefault = b.eyeLxDefault + (s.eyeLwidthDefault : Int) + s.spaceBetween ∧
      b.eyeRyDefault = b.eyeLyDefault ∧
      b.eyeLx = b.eyeLxDefault ∧ b.eyeLy = b.eyeLyDefault ∧
      b.eyeRx = b.eyeRxDefault ∧ b.eyeRy = b.eyeRyDefault ∧
      b.eyeLxNext = b.eyeLxDefault ∧ b.eyeLyNext = b.eyeLyDefault ∧
      b.eyeRxNext = b.eyeRxDefault ∧ b.eyeRyNext = b.eyeRyDefault ∧
      b.eyeLwidthDefault = s.eyeLwidthDefault ∧ b.eyeRwidthDefault = s.eyeRwidthDefault ∧
      b.eyeLheightDefault = s.eyeLheightDefault ∧ b.spaceBetween = s.spaceBetween := by
  refine ⟨_, by unfold begin; rw [if_neg hf], ?_⟩
  exact ⟨rfl, rfl, rfl, rfl, rfl, rfl, rfl, rfl, rfl, rfl, rfl, rfl, rfl, rfl, rfl, rfl⟩

/-- Claim C9 (default centering).  For a non-zero frame rate `begin` succeeds and sets
the default position of the left eye to `((W - (wL + space + wR)) / 2, (H - hL) / 2)`
(C++ integer division), the default position of the right eye to the left one moved by
`wL + space` to the right, and the current and the target position of each eye to its
default.  On a freshly constructed instance with `W = H = 240` the eyes are at
`(79, 102)` and `(125, 102)`. -/
theorem begin_centers (s : Eyes) (W H : Int) (fps now : Nat) (ok : Bool) (hf : fps ≠ 0) :
    (∃ b, begin s W H fps now ok = some b ∧
      b.eyeLxDefault = Int.tdiv (W - ((s.eyeLwidthDefault : Int) + s.spaceBetween
        + (s.eyeRwidthDefault : Int))) 2 ∧
      b.eyeLyDefault = Int.tdiv (H - (s.eyeLheightDefault : Int)) 2 ∧
      b.eyeRxDefault = b.eyeLxDefault + (s.eyeLwidthDefault : Int) + s.spaceBetween ∧
      b.eyeRyDefault = b.eyeLyDefault ∧
      b.eyeLx = b.eyeLxDefault ∧ b.eyeLy = b.eyeLyDefault ∧
      b.eyeRx = b.eyeRxDefault ∧ b.eyeRy = b.eyeRyDefault ∧
      b.eyeLxNext = b.eyeLxDefault ∧ b.eyeLyNext = b.eyeLyDefault ∧
      b.eyeRxNext = b.eyeRxDefault ∧ b.eyeRyNext = b.eyeRyDefault ∧
      b.eyeLwidthDefault = s.eyeLwidthDefault ∧ b.eyeRwidthDefault = s.eyeRwidthDefault ∧
      b.eyeLheightDefault = s.eyeLheightDefault ∧ b.spaceBetween = s.spaceBetween) ∧
    (∀ g : Eyes, ∃ b, begin (construct g) 240 240 fps now ok = some b ∧
      b.eyeLxDefault = 79 ∧ b.eyeLyDefault = 102 ∧
      b.eyeRxDefault = 125 ∧ b.eyeRyDefault = 102 ∧
      b.eyeLx = 79 ∧ b.eyeLy = 102 ∧ b.eyeRx = 125 ∧ b.eyeRy = 102 ∧
      b.eyeLxNext = 79 ∧ b.eyeLyNext = 102 ∧ b.eyeRxNext = 125 ∧ b.eyeRyNext = 102) := by
  refine ⟨begin_defaults s W H fps now ok hf, ?_⟩
  intro g
  have w1 : (construct g).eyeLwidthDefault = 36 := rfl
  have w2 : (construct g).eyeRwidthDefault = 36 := rfl
  have w3 : (construct g).eyeLheightDefault = 36 := rfl
  have w4 : (construct g).spaceBetween = 10 := rfl
  obtain ⟨b, hb, h1, h2, h3, h4, h5, h6, h7, h8, h9, h10, h11, h12, _⟩ :=
    begin_defaults (construct g) 240 240 fps now ok hf
  rw [w1, w2, w4] at h1
  rw [w3] at h2
  rw [w1, w4] at h3
  have e1 : Int.tdiv (240 - (((36 : Nat) : Int) + 10 + ((36 : Nat) : Int))) 2 = 79 := by
    decide
  have e2 : Int.tdiv (240 - ((36 : Nat) : Int)) 2 = 102 := by decide
  rw [e1] at h1
  rw [e2] at h2
  have h3n : b.eyeRxDefault = 125 := by rw [h3, h1]; rfl
  have h4n : b.eyeRyDefault = 102 := by rw [h4, h2]
  exact ⟨b, hb, h1, h2, h3n, h4n, by rw [h5, h1], by rw [h6, h2], by rw [h7, h3n],
    by rw [h8, h4n], by rw [h9, h1], by rw [h10, h2], by rw [h11, h3n], by rw [h12, h4n]⟩

/-- Witness for C9: `begin(240, 240, 30)` on a fresh instance. -/
theorem begin_centers_witness :
    ∃ b, begin fresh 240 240 30 0 true = some b ∧
      b.eyeLxDefault = 79 ∧ b.eyeLyDefault = 102 ∧
      b.eyeRxDefault = 125 ∧ b.eyeRyDefault = 102 ∧
      b.eyeLx = 79 ∧ b.eyeLy = 102 ∧ b.eyeRx = 125 ∧ b.eyeRy = 102 ∧
      b.eyeLxNext = 79 ∧ b.eyeLyNext = 102 ∧ b.eyeRxNext = 125 ∧ b.eyeRyNext = 102 :=
  (begin_centers fresh 240 240 30 0 true (by decide)).2 zeroEyes

/-- Claim C10 (position mapper).  With `maxX = screenWidth - eyeLwidthCurrent -
spaceBetween - eyeRwidthCurrent` and `maxY = screenHeight - eyeLheightDefault`,
`setPosition` moves the left target to the point of the table below (`/` is the C++
integer division), the centre for every code other than 1..8, makes the right target
follow at `eyeLwidthCurrent + spaceBetween`, and changes nothing else. -/
theorem setPosition_table (s : Eyes) :
    setPosition s 1 = withTargets s (Int.tdiv (s.screenWidth - s.eyeLwidthCurrent
      - s.spaceBetween - s.eyeRwidthCurrent) 2) 0 ∧
    setPosition s 2 = withTargets s (s.screenWidth - s.eyeLwidthCurrent
      - s.spaceBetween - s.eyeRwidthCurrent) 0 ∧
    setPosition s 3 = withTargets s (s.screenWidth - s.eyeLwidthCurrent
      - s.spaceBetween - s.eyeRwidthCurrent)
      (Int.tdiv (s.screenHeight - (s.eyeLheightDefault : Int)) 2) ∧
    setPosition s 4 = withTargets s (s.screenWidth - s.eyeLwidthCurrent
      - s.spaceBetween - s.eyeRwidthCurrent) (s.screenHeight - (s.eyeLheightDefault : Int)) ∧
    setPosition s 5 = withTargets s (Int.tdiv (s.screenWidth - s.eyeLwidthCurrent
      - s.spaceBetween - s.eyeRwidthCurrent) 2) (s.screenHeight - (s.eyeLheightDefault : Int)) ∧
    setPosition s 6 = withTargets s 0 (s.screenHeight - (s.eyeLheightDefault : Int)) ∧
    setPosition s 7 = withTargets s 0
      (Int.tdiv (s.screenHeight - (s.eyeLheightDefault : Int)) 2) ∧
    setPosition s 8 = withTargets s 0 0 ∧
    (∀ pos : Nat, pos = 0 ∨ 9 ≤ pos →
      setPosition s pos = withTargets s
        (Int.tdiv (s.screenWidth - s.eyeLwidthCurrent - s.spaceBetween - s.eyeRwidthCurrent) 2)
        (Int.tdiv (s.screenHeight - (s.eyeLheightDefault : Int)) 2)) := by
  refine ⟨rfl, rfl, rfl, rfl, rfl, rfl, rfl, rfl, ?_⟩
  intro pos hpos
  have h1 : pos ≠ 1 := by omega
  have h2 : pos ≠ 2 := by omega
  have h3 : pos ≠ 3 := by omega
  have h4 : pos ≠ 4 := by omega
  have h5 : pos ≠ 5 := by omega
  have h6 : pos ≠ 6 := by omega
  have h7 : pos ≠ 7 := by omega
  have h8 : pos ≠ 8 := by omega
  unfold setPosition positionTarget
  rw [if_neg h1, if_neg h2, if_neg h3, if_neg h4, if_neg h5, if_neg h6, if_neg h7, if_neg h8]
  rfl

/-- Witness for C10: the codes 0 and 200 both select the centre. -/
theorem setPosition_table_witness :
    setPosition fresh 0 = withTargets fresh
        (Int.tdiv (fresh.screenWidth - fresh.eyeLwidthCurrent - fresh.spaceBetween
          - fresh.eyeRwidthCurrent) 2)
        (Int.tdiv (fresh.screenHeight - (fresh.eyeLheightDefault : Int)) 2) ∧
      setPosition fresh 200 = withTargets fresh
        (Int.tdiv (fresh.screenWidth - fresh.eyeLwidthCurrent - fresh.spaceBetween
          - fresh.eyeRwidthCurrent) 2)
        (Int.tdiv (fresh.screenHeight - (fresh.eyeLheightDefault : Int)) 2) :=
  ⟨(setPosition_table fresh).2.2.2.2.2.2.2.2 0 (Or.inl rfl),
   (setPosition_table fresh).2.2.2.2.2.2.2.2 200 (Or.inr (by decide))⟩

/-! ## Idle wander -/

theorem targets_after_blinkStep (s : Eyes) :
    (blinkStep s).eyeLxNext = s.eyeLxNext ∧ (blinkStep s).eyeLyNext = s.eyeLyNext ∧
      (blinkStep s).eyeRxNext = s.eyeRxNext ∧ (blinkStep s).eyeRyNext = s.eyeRyNext := by
  rw [blinkStep_frame]
  exact ⟨rfl, rfl, rfl, rfl⟩

theorem targets_after_applyMood (s : Eyes) :
    (applyMood s).eyeLxNext = s.eyeLxNext ∧ (applyMood s).eyeLyNext = s.eyeLyNext ∧
      (applyMood s).eyeRxNext = s.eyeRxNext ∧ (applyMood s).eyeRyNext = s.eyeRyNext := by
  rw [applyMood_frame]
  exact ⟨rfl, rfl, rfl, rfl⟩

/-- The position targets at the end of the tick are those left by the idle branch. -/
theorem targets_after_tail (s : Eyes) :
    (applyMood (smoothTransitions (blinkStep s))).eyeLxNext = s.eyeLxNext ∧
      (applyMood (smoothTransitions (blinkStep s))).eyeLyNext = s.eyeLyNext ∧
      (applyMood (smoothTransitions (blinkStep s))).eyeRxNext = s.eyeRxNext ∧
      (applyMood (smoothTransitions (blinkStep s))).eyeRyNext = s.eyeRyNext := by
  obtain ⟨a1, a2, a3, a4⟩ := targets_after_applyMood (smoothTransitions (blinkStep s))
  obtain ⟨b1, b2, b3, b4⟩ := targets_after_blinkStep s
  exact ⟨a1.trans b1, a2.trans b2, a3.trans b3, a4.trans b4⟩

/-- The auto-blinker branch leaves alone what the idle branch reads. -/
theorem idle_inputs_after_autoBlinkStep (s : Eyes) (now : Nat) (d : Draws) :
    idleFires (autoBlinkStep s now d) now = idleFires s now ∧
      (autoBlinkStep s now d).eyeLwidthCurrent = s.eyeLwidthCurrent ∧
      (autoBlinkStep s now d).spaceBetween = s.spaceBetween := by
  unfold idleFires
  rw [autoBlinkStep_frame]
  exact ⟨rfl, rfl, rfl⟩

/-- Claim C5 (idle wander stays in bounds).  Let idle mode be enabled, the motion
bounds be `maxX = screenWidth - eyeLwidthCurrent - spaceBetween - eyeRwidthCurrent` and
`maxY = screenHeight - eyeLheightDefault`, and let the two `random(n)` calls return
values in `[0, n)` (so that both bounds are positive).  An `update()` that passes the frame-rate gate at a time
`now ≥ nextIdleTime` ends with `0 ≤ eyeLxNext < maxX`, `0 ≤ eyeLyNext < maxY`,
`eyeRxNext = eyeLxNext + eyeLwidthCurrent + spaceBetween` and `eyeRyNext = eyeLyNext`,
where the bounds, `eyeLwidthCurrent` and `spaceBetween` are those of the state in which
the wander fires (the state `update()` starts from). -/
theorem idle_wander_in_bounds (s : Eyes) (now : Nat) (d : Draws)
    (hidle : s.idleModeEnabled = true)
    (hpass : ¬ wrap32 ((now : Int) - (s.fpsTimer : Int)) < wrap32 s.frameInterval)
    (hdue : s.nextIdleTime ≤ now)
    (hrx : 0 ≤ d.idleX ∧
      d.idleX < s.screenWidth - s.eyeLwidthCurrent - s.spaceBetween - s.eyeRwidthCurrent)
    (hry : 0 ≤ d.idleY ∧ d.idleY < s.screenHeight - (s.eyeLheightDefault : Int)) :
    0 ≤ (update s now d).st.eyeLxNext ∧
      (update s now d).st.eyeLxNext
        < s.screenWidth - s.eyeLwidthCurrent - s.spaceBetween - s.eyeRwidthCurrent ∧
      0 ≤ (update s now d).st.eyeLyNext ∧
      (update s now d).st.eyeLyNext < s.screenHeight - (s.eyeLheightDefault : Int) ∧
      (update s now d).st.eyeRxNext
        = (update s now d).st.eyeLxNext + s.eyeLwidthCurrent + s.spaceBetween ∧
      (update s now d).st.eyeRyNext = (update s now d).st.eyeLyNext := by
  have hst : (update s now d).st = tickBody s now d := by
    rw [update_st]
    unfold gateBlocks
    rw [if_neg (by simpa using hpass)]
  rw [hst]
  unfold tickBody
  obtain ⟨t1, t2, t3, t4⟩ :=
    targets_after_tail (idleStep (autoBlinkStep { s with fpsTimer := now } now d) now d)
  obtain ⟨i1, i2, i3⟩ := idle_inputs_after_autoBlinkStep { s with fpsTimer := now } now d
  have hfire : idleFires (autoBlinkStep { s with fpsTimer := now } now d) now = true := by
    rw [i1]
    unfold idleFires
    simp [hidle, hdue]
  rw [t1, t2, t3, t4]
  unfold idleStep
  rw [if_pos hfire]
  show 0 ≤ d.idleX ∧ d.idleX < _ ∧ 0 ≤ d.idleY ∧ d.idleY < _ ∧
    d.idleX + (autoBlinkStep { s with fpsTimer := now } now d).eyeLwidthCurrent
      + (autoBlinkStep { s with fpsTimer := now } now d).spaceBetween
      = d.idleX + s.eyeLwidthCurrent + s.spaceBetween ∧ d.idleY = d.idleY
  rw [i2, i3]
  exact ⟨hrx.1, hrx.2, hry.1, hry.2, rfl, rfl⟩

/-- Witness for C5: a 240x240 instance with idle mode due at time 0, a tick at 100 ms and
the random point `(57, 120)`. -/
theorem idle_wander_in_bounds_witness :
    0 ≤ (update idleDue 100 ⟨0, 57, 120, 0⟩).st.eyeLxNext ∧
      (update idleDue 100 ⟨0, 57, 120, 0⟩).st.eyeLxNext
        < idleDue.screenWidth - idleDue.eyeLwidthCurrent - idleDue.spaceBetween
          - idleDue.eyeRwidthCurrent ∧
      0 ≤ (update idleDue 100 ⟨0, 57, 120, 0⟩).st.eyeLyNext ∧
      (update idleDue 100 ⟨0, 57, 120, 0⟩).st.eyeLyNext
        < idleDue.screenHeight - (idleDue.eyeLheightDefault : Int) ∧
      (update idleDue 100 ⟨0, 57, 120, 0⟩).st.eyeRxNext
        = (update idleDue 100 ⟨0, 57, 120, 0⟩).st.eyeLxNext + idleDue.eyeLwidthCurrent
          + idleDue.spaceBetween ∧
      (update idleDue 100 ⟨0, 57, 120, 0⟩).st.eyeRyNext
        = (update idleDue 100 ⟨0, 57, 120, 0⟩).st.eyeLyNext :=
  idle_wander_in_bounds idleDue 100 ⟨0, 57, 120, 0⟩ rfl (by decide) (by decide)
    (by decide) (by decide)

/-! ## Easing: bounds and fixed points -/

theorem tdiv5_between (n a b : Int) (h1 : 5 * a ≤ n) (h2 : n ≤ 5 * b) :
    a ≤ Int.tdiv n 5 ∧ Int.tdiv n 5 ≤ b := by
  rcases Int.lt_or_le n 0 with hn | hn
  · rw [tdiv_of_nonpos n 5 hn.le (by norm_num)]
    omega
  · rw [Int.tdiv_eq_ediv hn (by norm_num)]
    omega

/-- One easing step on screen-sized values stays between the value and its target. -/
theorem easeStep_between (v t : Int) (hv : ScreenSized v) (ht : ScreenSized t) :
    min v t ≤ easeStep v t ∧ easeStep v t ≤ max v t := by
  unfold ScreenSized at hv ht
  rw [easeStep_eq_tdiv v t hv ht]
  exact tdiv5_between (4 * v + t) (min v t) (max v t) (by omega) (by omega)

/-- Claim C8 (easing never overshoots).  When the eight eased members and their targets
are of screen-sized magnitude (at most `2^21`), each of the eight assignments of
`smoothTransitions()` leaves the member between its old value and its target:
`min (v, t) ≤ v' ≤ max (v, t)`.  On these magnitudes the single-precision step is
exactly `v' = trunc (v + (t - v) * 0.2)` (`easeStep_eq_tdiv`). -/
theorem smoothTransitions_never_overshoots (s : Eyes) (h : GeometryScreenSized s) :
    (min s.eyeLx s.eyeLxNext ≤ (smoothTransitions s).eyeLx ∧
      (smoothTransitions s).eyeLx ≤ max s.eyeLx s.eyeLxNext) ∧
    (min s.eyeLy s.eyeLyNext ≤ (smoothTransitions s).eyeLy ∧
      (smoothTransitions s).eyeLy ≤ max s.eyeLy s.eyeLyNext) ∧
    (min s.eyeRx s.eyeRxNext ≤ (smoothTransitions s).eyeRx ∧
      (smoothTransitions s).eyeRx ≤ max s.eyeRx s.eyeRxNext) ∧
    (min s.eyeRy s.eyeRyNext ≤ (smoothTransitions s).eyeRy ∧
      (smoothTransitions s).eyeRy ≤ max s.eyeRy s.eyeRyNext) ∧
    (min s.eyeLwidthCurrent s.eyeLwidthNext ≤ (smoothTransitions s).eyeLwidthCurrent ∧
      (smoothTransitions s).eyeLwidthCurrent ≤ max s.eyeLwidthCurrent s.eyeLwidthNext) ∧
    (min s.eyeLheightCurrent s.eyeLheightNext ≤ (smoothTransitions s).eyeLheightCurrent ∧
      (smoothTransitions s).eyeLheightCurrent
        ≤ max s.eyeLheightCurrent s.eyeLheightNext) ∧
    (min s.eyeRwidthCurrent s.eyeRwidthNext ≤ (smoothTransitions s).eyeRwidthCurrent ∧
      (smoothTransitions s).eyeRwidthCurrent ≤ max s.eyeRwidthCurrent s.eyeRwidthNext) ∧
    (min s.eyeRheightCurrent s.eyeRheightNext ≤ (smoothTransitions s).eyeRheightCurrent ∧
      (smoothTransitions s).eyeRheightCurrent
        ≤ max s.eyeRheightCurrent s.eyeRheightNext) := by
  obtain ⟨a1, a2, a3, a4, a5, a6, a7, a8, a9, a10, a11, a12, a13, a14, a15, a16⟩ := h
  exact ⟨easeStep_between _ _ a1 a2, easeStep_between _ _ a3 a4, easeStep_between _ _ a5 a6,
    easeStep_between _ _ a7 a8, easeStep_between _ _ a9 a10, easeStep_between _ _ a11 a12,
    easeStep_between _ _ a13 a14, easeStep_between _ _ a15 a16⟩

/-- Witness for C8: the begun instance after `close()` (height target 0). -/
theorem smoothTransitions_never_overshoots_witness :
    (min (close begun).eyeLheightCurrent (close begun).eyeLheightNext
        ≤ (smoothTransitions (close begun)).eyeLheightCurrent ∧
      (smoothTransitions (close begun)).eyeLheightCurrent
        ≤ max (close begun).eyeLheightCurrent (close begun).eyeLheightNext) :=
  (smoothTransitions_never_overshoots (close begun) (by decide)).2.2.2.2.2.1

/-- What a magnitude rounds to is a multiple of the unit of its last place. -/
theorem roundNat_multiple (n : Nat) : ∃ a, roundNat n = a * 2 ^ normShift n n := by
  unfold roundNat
  simp only []
  split_ifs
  · exact ⟨_, rfl⟩
  · exact ⟨_, rfl⟩

/-- Scaling by a power of two keeps a magnitude exactly representable. -/
theorem roundNat_scale (n k : Nat) (h : roundNat n = n) : roundNat (n * 2 ^ k) = n * 2 ^ k := by
  obtain ⟨a, ha⟩ := roundNat_multiple n
  rw [h] at ha
  obtain ⟨hlt, _⟩ := normShift_spec n n le_rfl
  have hle : normShift (n * 2 ^ k) (n * 2 ^ k) ≤ normShift n n + k := by
    apply normShift_le
    rw [Nat.pow_add, ← Nat.mul_assoc]
    exact Nat.mul_lt_mul_of_pos_right hlt (Nat.pow_pos (by norm_num))
  have hP : 0 < 2 ^ normShift (n * 2 ^ k) (n * 2 ^ k) := Nat.pow_pos (by norm_num)
  have hsplit : n * 2 ^ k = (a * 2 ^ (normShift n n + k - normShift (n * 2 ^ k) (n * 2 ^ k)))
      * 2 ^ normShift (n * 2 ^ k) (n * 2 ^ k) := by
    rw [Nat.mul_assoc, ← Nat.pow_add, Nat.sub_add_cancel hle, Nat.pow_add, ← Nat.mul_assoc,
      ← ha]
  have key := roundNat_eq_of_near (n * 2 ^ k)
    (a * 2 ^ (normShift n n + k - normShift (n * 2 ^ k) (n * 2 ^ k)))
    (by rw [← hsplit]; omega) (by rw [← hsplit]; omega)
  rw [key, ← hsplit]

theorem roundInt_scale (z : Int) (k : Nat) (h : roundInt z = z) :
    roundInt (z * 2 ^ k) = z * 2 ^ k := by
  have hn : roundNat z.natAbs = z.natAbs := by
    unfold roundInt at h
    split_ifs at h <;> omega
  have hp : (0 : Int) < 2 ^ k := by positivity
  apply roundInt_of_natAbs
  · have e : (z * 2 ^ k).natAbs = z.natAbs * 2 ^ k := by
      rw [Int.natAbs_mul, Int.natAbs_pow]
      rfl
    rw [e]
    exact roundNat_scale _ k hn
  · intro hz
    rcases Int.lt_or_le z 0 with hneg | hpos
    · exact (Int.mul_neg_of_neg_of_pos hneg hp).le
    · have := Int.mul_nonneg hpos hp.le
      omega
  · intro hz
    rcases Int.lt_or_le z 0 with hneg | hpos
    · have := Int.mul_neg_of_neg_of_pos hneg hp
      omega
    · exact Int.mul_nonneg hpos hp.le

/-- Single precision represents every integer of magnitude up to `2^24` exactly. -/
theorem exact_of_natAbs_le (v : Int) (h : v.natAbs ≤ 16777216) : Exact v := by
  unfold Exact
  rcases Nat.lt_or_ge v.natAbs 16777216 with hlt | hge
  · exact roundInt_exact v hlt
  · have hv : v = 16777216 ∨ v = -16777216 := by omega
    rcases hv with hv | hv <;> subst hv <;> decide

/-- An exactly representable value that has reached its target stays. -/
theorem easeStep_self (v : Int) (h : Exact v) : easeStep v v = v := by
  unfold Exact at h
  have z : roundInt (roundInt 0 * 13421773) = 0 := by decide
  have e := roundInt_scale v 26 h
  norm_num at e
  rw [easeStep_unfold, sub_self, h, z, add_zero, e, Int.mul_tdiv_cancel _ (by norm_num)]

/-- At its targets, and on integers that single precision represents exactly,
`smoothTransitions()` changes nothing. -/
theorem smoothTransitions_fixed (s : Eyes) (heq : AtTargets s) (hex : GeometryExact s) :
    smoothTransitions s = s := by
  obtain ⟨a1, a2, a3, a4, a5, a6, a7, a8⟩ := heq
  obtain ⟨b1, b2, b3, b4, b5, b6, b7, b8⟩ := hex
  have e1 : easeStep s.eyeLx s.eyeLxNext = s.eyeLx := by rw [← a1]; exact easeStep_self _ b1
  have e2 : easeStep s.eyeLy s.eyeLyNext = s.eyeLy := by rw [← a2]; exact easeStep_self _ b2
  have e3 : easeStep s.eyeRx s.eyeRxNext = s.eyeRx := by rw [← a3]; exact easeStep_self _ b3
  have e4 : easeStep s.eyeRy s.eyeRyNext = s.eyeRy := by rw [← a4]; exact easeStep_self _ b4
  have e5 : easeStep s.eyeLwidthCurrent s.eyeLwidthNext = s.eyeLwidthCurrent := by
    rw [← a5]; exact easeStep_self _ b5
  have e6 : easeStep s.eyeLheightCurrent s.eyeLheightNext = s.eyeLheightCurrent := by
    rw [← a6]; exact easeStep_self _ b6
  have e7 : easeStep s.eyeRwidthCurrent s.eyeRwidthNext = s.eyeRwidthCurrent := by
    rw [← a7]; exact easeStep_self _ b7
  have e8 : easeStep s.eyeRheightCurrent s.eyeRheightNext = s.eyeRheightCurrent := by
    rw [← a8]; exact easeStep_self _ b8
  unfold smoothTransitions
  rw [e1, e2, e3, e4, e5, e6, e7, e8]

theorem autoBlinkStep_idle (s : Eyes) (now : Nat) (d : Draws)
    (h : autoBlinkFires s now = false) : autoBlinkStep s now d = s := by
  unfold autoBlinkStep
  rw [h]
  rfl

theorem idleStep_idle (s : Eyes) (now : Nat) (d : Draws)
    (h : idleFires s now = false) : idleStep s now d = s := by
  unfold idleStep
  rw [h]
  rfl

theorem blinkStep_idle (s : Eyes) (h : s.isBlinking = false) : blinkStep s = s := by
  unfold blinkStep
  rw [h]
  rfl

theorem applyMood_idle (s : Eyes) (hm : s.currentMood = 0) (hb : s.isBlinking = false)
    (hc : s.curious = false) (h1 : s.eyeLheightNext = (s.eyeLheightDefault : Int))
    (h2 : s.eyeRheightNext = (s.eyeRheightDefault : Int))
    (h3 : s.eyeLwidthNext = (s.eyeLwidthDefault : Int))
    (h4 : s.eyeRwidthNext = (s.eyeRwidthDefault : Int)) : applyMood s = s := by
  have m : moodHeights s = s := by
    unfold moodHeights
    rw [if_neg (by rw [hm]; decide), if_neg (by rw [hm]; decide), if_neg (by rw [hm]; decide),
      if_pos (by rw [hb]; rfl), ← h1, ← h2]
  unfold applyMood
  rw [m]
  unfold curiosityWidths
  rw [if_neg (by rw [hc]; decide), ← h3, ← h4]

/-- Counterexample for C7: at x = 2^24 + 1 every eased member equals its target, and
`smoothTransitions()` moves the left eye to x = 2^24 (the `int → float` conversion
rounds). -/
theorem fixed_point_fails_beyond_single_precision :
    AtTargets farAway ∧ farAway.eyeLx = 16777217 ∧
      (smoothTransitions farAway).eyeLx = 16777216 ∧
      (smoothTransitions farAway).eyeLx ≠ farAway.eyeLx := by
  decide

/-- Claim C7, amended (interpolation fixed point).  In every state in which each of the
eight eased members equals its target and is exactly representable in single precision
(as every integer of magnitude up to `2^24` is), `smoothTransitions()` changes nothing;
and an `update()` that passes the frame-rate gate in the default mood, with no blink in
progress, neither the auto-blinker nor the idle wander firing, curiosity off and the size
targets equal to the defaults changes no member but `fpsTimer`. -/
theorem tick_fixed_point (s : Eyes) (heq : AtTargets s) (hex : GeometryExact s) :
    smoothTransitions s = s ∧
      ∀ (now : Nat) (d : Draws),
        ¬ wrap32 ((now : Int) - (s.fpsTimer : Int)) < wrap32 s.frameInterval →
        s.currentMood = 0 → s.isBlinking = false →
        autoBlinkFires s now = false → idleFires s now = false → s.curious = false →
        s.eyeLheightNext = (s.eyeLheightDefault : Int) →
        s.eyeRheightNext = (s.eyeRheightDefault : Int) →
        s.eyeLwidthNext = (s.eyeLwidthDefault : Int) →
        s.eyeRwidthNext = (s.eyeRwidthDefault : Int) →
        (update s now d).st = { s with fpsTimer := now } := by
  refine ⟨smoothTransitions_fixed s heq hex, ?_⟩
  intro now d hpass hm hb hab hid hc h1 h2 h3 h4
  have hst : (update s now d).st = tickBody s now d := by
    rw [update_st]
    unfold gateBlocks
    rw [if_neg (by simpa using hpass)]
  rw [hst]
  unfold tickBody
  generalize hs1 : ({ s with fpsTimer := now } : Eyes) = s1
  have k1 : autoBlinkFires s1 now = false := by rw [← hs1]; exact hab
  have k2 : idleFires s1 now = false := by rw [← hs1]; exact hid
  have k3 : s1.isBlinking = false := by rw [← hs1]; exact hb
  have k4 : AtTargets s1 := by rw [← hs1]; exact heq
  have k5 : GeometryExact s1 := by rw [← hs1]; exact hex
  have k6 : s1.currentMood = 0 := by rw [← hs1]; exact hm
  have k7 : s1.curious = false := by rw [← hs1]; exact hc
  have k8 : s1.eyeLheightNext = (s1.eyeLheightDefault : Int) := by rw [← hs1]; exact h1
  have k9 : s1.eyeRheightNext = (s1.eyeRheightDefault : Int) := by rw [← hs1]; exact h2
  have k10 : s1.eyeLwidthNext = (s1.eyeLwidthDefault : Int) := by rw [← hs1]; exact h3
  have k11 : s1.eyeRwidthNext = (s1.eyeRwidthDefault : Int) := by rw [← hs1]; exact h4
  rw [autoBlinkStep_idle _ now d k1, idleStep_idle _ now d k2, blinkStep_idle _ k3,
    smoothTransitions_fixed _ k4 k5, applyMood_idle _ k6 k3 k7 k8 k9 k10 k11]

/-- Witness for C7 (amended): the begun instance, ticked at 40 ms. -/
theorem tick_fixed_point_witness :
    smoothTransitions begun = begun ∧
      (update begun 40 noDraws).st = { begun with fpsTimer := 40 } :=
  ⟨(tick_fixed_point begun (by decide) (by decide)).1,
   (tick_fixed_point begun (by decide) (by decide)).2 40 noDraws (by decide) rfl rfl rfl rfl
     rfl rfl rfl rfl rfl⟩

/-! ## Sequences of calls -/

theorem begin_fresh : begin fresh 240 240 30 0 true = some begun := rfl

/-- A property that every admitted call preserves holds after every admitted sequence. -/
theorem runWhile_invariant (ok : Eyes → Call → Bool) (P : Eyes → Prop)
    (hstep : ∀ s c s1, P s → ok s c = true → step s c = some s1 → P s1) :
    ∀ (cs : List Call) (s s1 : Eyes), P s → runWhile ok s cs = some s1 → P s1 := by
  intro cs
  induction cs with
  | nil =>
    intro s s1 hP h
    unfold runWhile at h
    cases h
    exact hP
  | cons c cs ih =>
    intro s s1 hP h
    unfold runWhile at h
    by_cases hok : ok s c = true
    · rw [if_pos hok] at h
      cases hs : step s c with
      | none =>
        rw [hs] at h
        cases h
      | some s2 =>
        rw [hs] at h
        exact ih s2 s1 (hstep s c s2 hP hok hs) h
    · rw [if_neg hok] at h
      cases h

/-! ## The rigid pair, vertically -/

theorem rigidY_autoBlinkStep (s : Eyes) (now : Nat) (d : Draws) (h : RigidY s) :
    RigidY (autoBlinkStep s now d) := by
  unfold RigidY
  rw [autoBlinkStep_frame]
  exact h

theorem rigidY_idleStep (s : Eyes) (now : Nat) (d : Draws) (h : RigidY s) :
    RigidY (idleStep s now d) := by
  unfold idleStep
  split_ifs
  · exact ⟨rfl, h.2⟩
  · exact h

theorem rigidY_blinkStep (s : Eyes) (h : RigidY s) : RigidY (blinkStep s) := by
  unfold RigidY
  rw [blinkStep_frame]
  exact h

theorem rigidY_smoothTransitions (s : Eyes) (h : RigidY s) :
    RigidY (smoothTransitions s) := by
  refine ⟨h.1, ?_⟩
  show easeStep s.eyeRy s.eyeRyNext = easeStep s.eyeLy s.eyeLyNext
  rw [h.1, h.2]

theorem rigidY_applyMood (s : Eyes) (h : RigidY s) : RigidY (applyMood s) := by
  unfold RigidY
  rw [applyMood_frame]
  exact h

theorem rigidY_tickBody (s : Eyes) (now : Nat) (d : Draws) (h : RigidY s) :
    RigidY (tickBody s now d) := by
  unfold tickBody
  have h1 : RigidY { s with fpsTimer := now } := h
  exact rigidY_applyMood _ (rigidY_smoothTransitions _ (rigidY_blinkStep _
    (rigidY_idleStep _ now d (rigidY_autoBlinkStep _ now d h1))))

theorem rigidY_update (s : Eyes) (now : Nat) (d : Draws) (h : RigidY s) :
    RigidY (update s now d).st := by
  rw [update_st]
  split_ifs
  · exact h
  · exact rigidY_tickBody s now d h

theorem rigidY_updates (ticks : Nat → Nat × Draws) :
    ∀ (n k : Nat) (s : Eyes), RigidY s → RigidY (updates ticks n k s) := by
  intro n
  induction n with
  | zero =>
    intro k s h
    exact h
  | succ n ih =>
    intro k s h
    unfold updates
    exact ih (k + 1) _ (rigidY_update s _ _ h)

theorem rigidY_retargetX (s : Eyes) (a b : Int) (h : RigidY s) :
    RigidY { s with eyeLxNext := a, eyeRxNext := b } := h

theorem rigidY_retargetY (s : Eyes) (c : Int) (h : RigidY s) :
    RigidY { s with eyeLyNext := c, eyeRyNext := c } := ⟨rfl, h.2⟩

theorem rigidY_confusedRound (ticks : Nat → Nat × Draws) (c : Int) (k : Nat) (s : Eyes)
    (h : RigidY s) : RigidY (confusedRound ticks c k s) := by
  unfold confusedRound
  have hb := rigidY_updates ticks 5 k _ (rigidY_retargetX s (c + 20)
    (c + 20 + s.eyeLwidthCurrent + s.spaceBetween) h)
  exact rigidY_updates ticks 5 (k + 5) _ (rigidY_retargetX _ _ _ hb)

theorem rigidY_laughRound (ticks : Nat → Nat × Draws) (c : Int) (k : Nat) (s : Eyes)
    (h : RigidY s) : RigidY (laughRound ticks c k s) := by
  unfold laughRound
  have hb := rigidY_updates ticks 5 k _ (rigidY_retargetY s (c - 15) h)
  exact rigidY_updates ticks 5 (k + 5) _ (rigidY_retargetY _ (c + 15) hb)

theorem rigidY_step (s : Eyes) (c : Call) (s1 : Eyes) (h : RigidY s)
    (hs : step s c = some s1) : RigidY s1 := by
  cases c with
  | begin w hh f now ok =>
    have hb : begin s w hh f now ok = some s1 := hs
    have hf : f ≠ 0 := by
      intro h0
      unfold begin at hb
      rw [if_pos h0] at hb
      cases hb
    obtain ⟨b, e, _, _, _, q4, _, q6, _, q8, _, q10, _, q12, _⟩ :=
      begin_defaults s w hh f now ok hf
    rw [hb] at e
    cases e
    exact ⟨by rw [q12, q10, q4], by rw [q8, q6, q4]⟩
  | setWidth l r => cases hs; exact h
  | setHeight l r => cases hs; exact h
  | setBorderradius l r => cases hs; exact h
  | setSpacebetween sp => cases hs; exact h
  | setMood m => cases hs; exact h
  | setPosition p => cases hs; exact ⟨rfl, h.2⟩
  | setCyclops b => cases hs; exact h
  | setCuriosity b => cases hs; exact h
  | setAutoblinker a i v now rnd =>
    cases hs
    unfold setAutoblinker
    split_ifs <;> exact h
  | setIdleMode a i v now rnd =>
    cases hs
    unfold setIdleMode
    split_ifs <;> exact h
  | blink =>
    cases hs
    unfold blink
    split_ifs <;> exact h
  | openEyes => cases hs; exact h
  | close => cases hs; exact h
  | anim_confused ticks =>
    have e : anim_confused s ticks = s1 := Option.some.inj hs
    rw [← e]
    have h3 := rigidY_confusedRound ticks (Int.tdiv (getScreenConstraint_X s) 2) 20 _
      (rigidY_confusedRound ticks (Int.tdiv (getScreenConstraint_X s) 2) 10 _
        (rigidY_confusedRound ticks (Int.tdiv (getScreenConstraint_X s) 2) 0 s h))
    unfold anim_confused
    exact rigidY_retargetX _ _ _ h3
  | anim_laugh ticks =>
    have e : anim_laugh s ticks = s1 := Option.some.inj hs
    rw [← e]
    have h3 := rigidY_laughRound ticks (Int.tdiv (getScreenConstraint_Y s) 2) 20 _
      (rigidY_laughRound ticks (Int.tdiv (getScreenConstraint_Y s) 2) 10 _
        (rigidY_laughRound ticks (Int.tdiv (getScreenConstraint_Y s) 2) 0 s h))
    unfold anim_laugh
    exact rigidY_retargetY _ _ h3
  | update now d => cases hs; exact rigidY_update s now d h

/-- Claim C4 (rigid pair, y).  In every state reached from the constructor by any
sequence of public calls (`begin`, the setters, `blink`, `open`, `close`, `update`, and the
two animations `anim_confused` and `anim_laugh`, whatever the clock readings and random
values), `eyeRyNext = eyeLyNext` and `eyeRy = eyeLy` hold exactly. -/
theorem rigid_pair_y (g : Eyes) (cs : List Call) (s : Eyes)
    (h : run (construct g) cs = some s) :
    s.eyeRyNext = s.eyeLyNext ∧ s.eyeRy = s.eyeLy :=
  runWhile_invariant (fun _ _ => true) RigidY
    (fun a c b ha _ hs => rigidY_step a c b ha hs) cs (construct g) s ⟨rfl, rfl⟩ h

/-- Witness for C4: construction, `begin`, a move to the south-east corner, a tick and
the laugh animation. -/
theorem rigid_pair_y_witness :
    run (construct zeroEyes) [Call.begin 240 240 30 0 true, Call.setPosition 4,
        Call.update 33 noDraws, Call.anim_laugh steadyTicks]
      = some (anim_laugh (update (setPosition begun 4) 33 noDraws).st steadyTicks) ∧
    (anim_laugh (update (setPosition begun 4) 33 noDraws).st steadyTicks).eyeRyNext
      = (anim_laugh (update (setPosition begun 4) 33 noDraws).st steadyTicks).eyeLyNext ∧
    (anim_laugh (update (setPosition begun 4) 33 noDraws).st steadyTicks).eyeRy
      = (anim_laugh (update (setPosition begun 4) 33 noDraws).st steadyTicks).eyeLy :=
  ⟨rfl, rigid_pair_y zeroEyes [Call.begin 240 240 30 0 true, Call.setPosition 4,
    Call.update 33 noDraws, Call.anim_laugh steadyTicks] _ rfl⟩

/-! ## The rigid pair, horizontally: targets -/

theorem easeStep_36 : easeStep 36 36 = 36 := by decide

theorem pairAtRest_autoBlinkStep (s : Eyes) (now : Nat) (d : Draws) (h : PairAtRest s) :
    PairAtRest (autoBlinkStep s now d) := by
  unfold PairAtRest
  rw [autoBlinkStep_frame]
  exact h

theorem pairAtRest_idleStep (s : Eyes) (now : Nat) (d : Draws) (h : PairAtRest s) :
    PairAtRest (idleStep s now d) := by
  unfold idleStep
  split_ifs
  · exact ⟨h.1, h.2.1, h.2.2.1, h.2.2.2.1, rfl⟩
  · exact h

theorem pairAtRest_blinkStep (s : Eyes) (h : PairAtRest s) : PairAtRest (blinkStep s) := by
  unfold PairAtRest
  rw [blinkStep_frame]
  exact h

theorem pairAtRest_smoothTransitions (s : Eyes) (h : PairAtRest s) :
    PairAtRest (smoothTransitions s) := by
  obtain ⟨h1, h2, h3, h4, h5⟩ := h
  have e : easeStep s.eyeLwidthCurrent s.eyeLwidthNext = 36 := by
    rw [h1, h2]
    exact easeStep_36
  refine ⟨e, h2, h3, h4, ?_⟩
  show s.eyeRxNext = s.eyeLxNext + easeStep s.eyeLwidthCurrent s.eyeLwidthNext + s.spaceBetween
  rw [e, h5, h1]

theorem pairAtRest_moodHeights (s : Eyes) (h : PairAtRest s) : PairAtRest (moodHeights s) := by
  unfold PairAtRest
  rw [moodHeights_frame]
  exact h

theorem pairAtRest_curiosityWidths (s : Eyes) (h : PairAtRest s) :
    PairAtRest (curiosityWidths s) := by
  obtain ⟨h1, h2, h3, h4, h5⟩ := h
  unfold curiosityWidths
  rw [if_neg (by rw [h4]; decide)]
  refine ⟨h1, ?_, h3, h4, h5⟩
  show (s.eyeLwidthDefault : Int) = 36
  rw [h3]
  rfl

theorem pairAtRest_tickBody (s : Eyes) (now : Nat) (d : Draws) (h : PairAtRest s) :
    PairAtRest (tickBody s now d) := by
  unfold tickBody applyMood
  have h1 : PairAtRest { s with fpsTimer := now } := h
  exact pairAtRest_curiosityWidths _ (pairAtRest_moodHeights _ (pairAtRest_smoothTransitions _
    (pairAtRest_blinkStep _ (pairAtRest_idleStep _ now d (pairAtRest_autoBlinkStep _ now d h1)))))

theorem pairAtRest_update (s : Eyes) (now : Nat) (d : Draws) (h : PairAtRest s) :
    PairAtRest (update s now d).st := by
  rw [update_st]
  split_ifs
  · exact h
  · exact pairAtRest_tickBody s now d h

theorem pairAtRest_step (s : Eyes) (c : Call) (s1 : Eyes) (h : PairAtRest s)
    (hok : keepsOffset c = true) (hs : step s c = some s1) : PairAtRest s1 := by
  cases c with
  | begin w hh f now ok => cases hok
  | setWidth l r => cases hok
  | setHeight l r => cases hs; exact h
  | setBorderradius l r => cases hok
  | setSpacebetween sp => cases hok
  | setMood m => cases hs; exact h
  | setPosition p => cases hs; exact ⟨h.1, h.2.1, h.2.2.1, h.2.2.2.1, rfl⟩
  | setCyclops b => cases hs; exact h
  | setCuriosity b =>
    cases hs
    cases b with
    | true => cases hok
    | false => exact ⟨h.1, h.2.1, h.2.2.1, rfl, h.2.2.2.2⟩
  | setAutoblinker a i v now rnd =>
    cases hs
    unfold setAutoblinker
    split_ifs <;> exact h
  | setIdleMode a i v now rnd =>
    cases hs
    unfold setIdleMode
    split_ifs <;> exact h
  | blink =>
    cases hs
    unfold blink
    split_ifs <;> exact h
  | openEyes => cases hs; exact h
  | close => cases hs; exact h
  | anim_confused ticks => cases hok
  | anim_laugh ticks => cases hok
  | update now d =>
    have e : (update s now d).st = s1 := Option.some.inj hs
    rw [← e]
    exact pairAtRest_update s now d h

theorem pairAtRest_begin (g : Eyes) (W H : Int) (fps now : Nat) (ok : Bool) (s0 : Eyes)
    (hb : begin (construct g) W H fps now ok = some s0) : PairAtRest s0 := by
  have hf : fps ≠ 0 := by
    intro h0
    unfold begin at hb
    rw [if_pos h0] at hb
    cases hb
  unfold begin at hb
  rw [if_neg hf] at hb
  cases hb
  exact ⟨rfl, rfl, rfl, rfl, rfl⟩

/-- Counterexample for C2: after `begin(240, 240, 30)` on a fresh instance,
`setSpacebetween(20)` leaves the right target at 125 while
`eyeLxNext + eyeLwidthCurrent + spaceBetween` is `79 + 36 + 20 = 135`. -/
theorem spacing_change_breaks_target_offset :
    run fresh [Call.begin 240 240 30 0 true, Call.setSpacebetween 20]
      = some (setSpacebetween begun 20) ∧
    (setSpacebetween begun 20).eyeRxNext = 125 ∧
    (setSpacebetween begun 20).eyeLxNext + (setSpacebetween begun 20).eyeLwidthCurrent
      + (setSpacebetween begun 20).spaceBetween = 135 ∧
    (setSpacebetween begun 20).eyeRxNext ≠
      (setSpacebetween begun 20).eyeLxNext + (setSpacebetween begun 20).eyeLwidthCurrent
        + (setSpacebetween begun 20).spaceBetween :=
  ⟨rfl, by decide, by decide, by decide⟩

/-- Claim C2, amended (rigid pair on targets, x).  In every state reached from
construction followed by `begin()` through any sequence of the calls `setHeight`,
`setMood`, `setPosition`, `setCyclops`, `setCuriosity(false)`, `setAutoblinker`,
`setIdleMode`, `blink`, `open`, `close` and `update` (that is, as long as the spacing, the
width of the left eye and the curiosity flag keep their constructed values),
`eyeRxNext = eyeLxNext + eyeLwidthCurrent + spaceBetween`. -/
theorem rigid_pair_target_x (g : Eyes) (W H : Int) (fps now : Nat) (ok : Bool) (s0 : Eyes)
    (hb : begin (construct g) W H fps now ok = some s0) (cs : List Call) (s : Eyes)
    (h : runWhile (fun _ c => keepsOffset c) s0 cs = some s) :
    s.eyeRxNext = s.eyeLxNext + s.eyeLwidthCurrent + s.spaceBetween :=
  (runWhile_invariant (fun _ c => keepsOffset c) PairAtRest
    (fun a c b ha hok hs => pairAtRest_step a c b ha hok hs) cs s0 s
    (pairAtRest_begin g W H fps now ok s0 hb) h).2.2.2.2

/-- Witness for C2 (amended): `begin`, a move to the east, two ticks, a blink. -/
theorem rigid_pair_target_x_witness :
    (blink (update (update (setPosition begun 3) 33 noDraws).st 66 noDraws).st).eyeRxNext
      = (blink (update (update (setPosition begun 3) 33 noDraws).st 66 noDraws).st).eyeLxNext
        + (blink (update (update (setPosition begun 3) 33 noDraws).st 66 noDraws).st).eyeLwidthCurrent
        + (blink (update (update (setPosition begun 3) 33 noDraws).st 66 noDraws).st).spaceBetween :=
  rigid_pair_target_x zeroEyes 240 240 30 0 true begun rfl
    [Call.setPosition 3, Call.update 33 noDraws, Call.update 66 noDraws, Call.blink] _ rfl

/-! ## The rigid pair, horizontally: drawn positions -/

theorem autoBlinkStep_blinking (s : Eyes) (now : Nat) (d : Draws) (h : s.isBlinking = true) :
    autoBlinkStep s now d = s := by
  apply autoBlinkStep_idle
  unfold autoBlinkFires
  rw [h]
  simp

theorem blinkInProgress_idleStep (s : Eyes) (now : Nat) (d : Draws)
    (h : BlinkInProgress s) : BlinkInProgress (idleStep s now d) := by
  unfold BlinkInProgress
  rw [idleStep_frame]
  exact h

theorem blinkEasing_blinkStep (s : Eyes) (h : BlinkInProgress s) :
    BlinkEasing (blinkStep s) := by
  obtain ⟨hb, hm, hd, hp⟩ := h
  unfold blinkStep
  rw [if_pos hb]
  rcases hp with ⟨p, l, u⟩ | ⟨p, l, u, n⟩ | ⟨p, l, u⟩
  · rw [if_pos p]
    refine ⟨hb, hm, hd, ?_⟩
    by_cases hc : s.eyeLheightCurrent ≤ 2
    · exact Or.inr (Or.inl ⟨if_pos hc, rfl, l, hc⟩)
    · exact Or.inl ⟨(if_neg hc).trans p, rfl, l, u⟩
  · rw [if_neg (by rw [p]; decide), if_pos p]
    exact ⟨hb, hm, hd, Or.inr (Or.inr (Or.inl ⟨rfl, n, l, u⟩))⟩
  · have hn : ¬ s.eyeLheightCurrent ≥ (s.eyeLheightDefault : Int) - 2 := by
      rw [hd]
      push_cast
      omega
    rw [if_neg (by rw [p]; decide), if_neg (by rw [p]; decide), if_pos p, if_neg hn]
    refine ⟨hb, hm, hd, Or.inr (Or.inr (Or.inr ⟨p, ?_, l, u⟩))⟩
    show (s.eyeLheightDefault : Int) = 36
    rw [hd]
    rfl

theorem blinkInProgress_smoothTransitions (s : Eyes) (h : BlinkEasing s) :
    BlinkInProgress (smoothTransitions s) := by
  obtain ⟨hb, hm, hd, hp⟩ := h
  refine ⟨hb, hm, hd, ?_⟩
  have e : (smoothTransitions s).eyeLheightCurrent
      = (4 * s.eyeLheightCurrent + s.eyeLheightNext) / 5 := by
    show easeStep s.eyeLheightCurrent s.eyeLheightNext = _
    rw [easeStep_eq_tdiv _ _ (by rcases hp with h | h | h | h <;> omega)
      (by rcases hp with h | h | h | h <;> omega),
      Int.tdiv_eq_ediv (by rcases hp with h | h | h | h <;> omega) (by norm_num)]
  rw [e]
  rcases hp with ⟨p, n, l, u⟩ | ⟨p, n, l, u⟩ | ⟨p, n, l, u⟩ | ⟨p, n, l, u⟩
  · exact Or.inl ⟨p, by omega, by omega⟩
  · exact Or.inr (Or.inl ⟨p, by omega, by omega, n⟩)
  · exact Or.inr (Or.inr ⟨p, by omega, by omega⟩)
  · exact Or.inr (Or.inr ⟨p, by omega, by omega⟩)

theorem blinkInProgress_applyMood (s : Eyes) (h : BlinkInProgress s) :
    BlinkInProgress (applyMood s) := by
  have m : moodHeights s = s := by
    unfold moodHeights
    rw [if_neg (by rw [h.2.1]; decide), if_neg (by rw [h.2.1]; decide),
      if_neg (by rw [h.2.1]; decide), if_neg (by rw [h.1]; decide)]
  unfold applyMood
  rw [m]
  unfold BlinkInProgress
  rw [curiosityWidths_frame]
  exact h

theorem blinkInProgress_tickBody (s : Eyes) (now : Nat) (d : Draws)
    (h : BlinkInProgress s) : BlinkInProgress (tickBody s now d) := by
  unfold tickBody
  have h1 : BlinkInProgress { s with fpsTimer := now } := h
  rw [autoBlinkStep_blinking _ now d h1.1]
  exact blinkInProgress_applyMood _ (blinkInProgress_smoothTransitions _
    (blinkEasing_blinkStep _ (blinkInProgress_idleStep _ now d h1)))

theorem blinkInProgress_update (s : Eyes) (now : Nat) (d : Draws)
    (h : BlinkInProgress s) : BlinkInProgress (update s now d).st := by
  rw [update_st]
  split_ifs
  · exact h
  · exact blinkInProgress_tickBody s now d h

theorem blinkInProgress_updates (ins : List (Nat × Draws)) :
    ∀ s : Eyes, BlinkInProgress s →
      ∃ s1, run s (updateCalls ins) = some s1 ∧ BlinkInProgress s1 := by
  induction ins with
  | nil =>
    intro s h
    exact ⟨s, rfl, h⟩
  | cons i ins ih =>
    intro s h
    obtain ⟨s1, e, h1⟩ := ih (update s i.1 i.2).st (blinkInProgress_update s i.1 i.2 h)
    exact ⟨s1, e, h1⟩

/-- Evidence for C1: on a fresh instance begun with `begin(240, 240, 30)`, after
`blink()` no sequence of `update()` calls, whatever the clock readings and random values,
ends the blink: `isBlinking` stays `true` and `blinkPhase` never returns to 0.  (The eye
closes to a height of at most 2, then opens up to height 32 and stays there, 4 below the
default 36, while the opening phase waits for a height of at least 34.) -/
theorem blink_never_completes (ins : List (Nat × Draws)) :
    ∃ s, run fresh (Call.begin 240 240 30 0 true :: Call.blink :: updateCalls ins) = some s ∧
      s.isBlinking = true ∧ s.blinkPhase ≠ 0 := by
  have h0 : BlinkInProgress (blink begun) :=
    ⟨rfl, rfl, rfl, Or.inl ⟨rfl, by decide, by decide⟩⟩
  obtain ⟨s, e, hb, _, _, hp⟩ := blinkInProgress_updates ins (blink begun) h0
  refine ⟨s, e, hb, ?_⟩
  rcases hp with h | h | h <;> rw [h.1] <;> decide

set_option maxRecDepth 1000000 in
/-- The blink of the fresh instance, ticked forty times 33 ms apart: the eye is stuck in
the opening phase at height 32, with the target 36. -/
theorem blink_stalls_at_32 :
    (run fresh (Call.begin 240 240 30 0 true :: Call.blink :: updateCalls fortyTicks)).map
        (fun s => (s.isBlinking, s.blinkPhase, s.eyeLheightCurrent, s.eyeLheightNext))
      = some (true, 3, 32, 36) := by
  decide

/-! ## The mood pass -/

theorem sameSetup_autoBlinkStep (s b : Eyes) (now : Nat) (d : Draws) (h : SameSetup s b) :
    SameSetup (autoBlinkStep s now d) b := by
  unfold SameSetup
  rw [autoBlinkStep_frame]
  exact h

theorem sameSetup_idleStep (s b : Eyes) (now : Nat) (d : Draws) (h : SameSetup s b) :
    SameSetup (idleStep s now d) b := by
  unfold SameSetup
  rw [idleStep_frame]
  exact h

theorem sameSetup_blinkStep (s b : Eyes) (h : SameSetup s b) : SameSetup (blinkStep s) b := by
  unfold SameSetup
  rw [blinkStep_frame]
  exact h

theorem sameSetup_smoothTransitions (s b : Eyes) (h : SameSetup s b) :
    SameSetup (smoothTransitions s) b := h

theorem sameSetup_applyMood (s b : Eyes) (h : SameSetup s b) : SameSetup (applyMood s) b := by
  unfold SameSetup
  rw [applyMood_frame]
  exact h

/-- The state the mood pass of a tick starts from has the mood, the default heights and
the open flags of the state the tick starts from. -/
theorem sameSetup_beforeMood (s : Eyes) (now : Nat) (d : Draws) :
    SameSetup (smoothTransitions (blinkStep
      (idleStep (autoBlinkStep { s with fpsTimer := now } now d) now d))) s := by
  have h1 : SameSetup { s with fpsTimer := now } s := ⟨rfl, rfl, rfl, rfl, rfl⟩
  exact sameSetup_smoothTransitions _ _ (sameSetup_blinkStep _ _
    (sameSetup_idleStep _ _ now d (sameSetup_autoBlinkStep _ _ now d h1)))

theorem update_st_pass (s : Eyes) (now : Nat) (d : Draws)
    (hpass : ¬ wrap32 ((now : Int) - (s.fpsTimer : Int)) < wrap32 s.frameInterval) :
    (update s now d).st = tickBody s now d := by
  rw [update_st]
  unfold gateBlocks
  rw [if_neg (by simpa using hpass)]

theorem heights_after_curiosityWidths (s : Eyes) :
    (curiosityWidths s).eyeLheightNext = s.eyeLheightNext ∧
      (curiosityWidths s).eyeRheightNext = s.eyeRheightNext := by
  rw [curiosityWidths_frame]
  exact ⟨rfl, rfl⟩

theorem moodHeights_happy (s : Eyes) (h : s.currentMood = 3) :
    (moodHeights s).eyeLheightNext = (s.eyeLheightDefault : Int) - 10 ∧
      (moodHeights s).eyeRheightNext = (s.eyeRheightDefault : Int) - 10 := by
  unfold moodHeights
  rw [if_pos h]
  exact ⟨rfl, rfl⟩

theorem moodHeights_tired (s : Eyes) (h : s.currentMood = 1) :
    (moodHeights s).eyeLheightNext = (s.eyeLheightDefault : Int) - 15 ∧
      (moodHeights s).eyeRheightNext = (s.eyeRheightDefault : Int) - 15 := by
  unfold moodHeights
  rw [if_neg (by rw [h]; decide), if_pos h]
  exact ⟨rfl, rfl⟩

/-- Claim C11 (mood target heights).  Whatever the state, and so whatever the height
targets before the tick, an `update()` that passes the frame-rate gate in the happy mood
ends with `eyeLheightNext = eyeLheightDefault - 10` and
`eyeRheightNext = eyeRheightDefault - 10`, and in the tired mood with
`eyeLheightDefault - 15` and `eyeRheightDefault - 15`; the tick does not change the
default heights. -/
theorem mood_target_heights (s : Eyes) (now : Nat) (d : Draws)
    (hpass : ¬ wrap32 ((now : Int) - (s.fpsTimer : Int)) < wrap32 s.frameInterval) :
    (s.currentMood = 3 →
      (update s now d).st.eyeLheightNext = ((update s now d).st.eyeLheightDefault : Int) - 10 ∧
      (update s now d).st.eyeRheightNext
        = ((update s now d).st.eyeRheightDefault : Int) - 10) ∧
    (s.currentMood = 1 →
      (update s now d).st.eyeLheightNext = ((update s now d).st.eyeLheightDefault : Int) - 15 ∧
      (update s now d).st.eyeRheightNext
        = ((update s now d).st.eyeRheightDefault : Int) - 15) ∧
    (update s now d).st.eyeLheightDefault = s.eyeLheightDefault ∧
    (update s now d).st.eyeRheightDefault = s.eyeRheightDefault := by
  rw [update_st_pass s now d hpass]
  have hx := sameSetup_beforeMood s now d
  have hy := sameSetup_applyMood _ _ hx
  unfold tickBody at *
  generalize smoothTransitions (blinkStep
    (idleStep (autoBlinkStep { s with fpsTimer := now } now d) now d)) = x at hx hy ⊢
  obtain ⟨x1, x2, x3, _, _⟩ := hx
  obtain ⟨_, y2, y3, _, _⟩ := hy
  obtain ⟨c1, c2⟩ := heights_after_curiosityWidths (moodHeights x)
  refine ⟨?_, ?_, y2, y3⟩
  · intro hm
    obtain ⟨m1, m2⟩ := moodHeights_happy x (x1.trans hm)
    rw [y2, y3]
    unfold applyMood
    rw [c1, c2, m1, m2, x2, x3]
    exact ⟨rfl, rfl⟩
  · intro hm
    obtain ⟨m1, m2⟩ := moodHeights_tired x (x1.trans hm)
    rw [y2, y3]
    unfold applyMood
    rw [c1, c2, m1, m2, x2, x3]
    exact ⟨rfl, rfl⟩

/-- Witness for C11: the begun instance in the happy mood and in the tired mood. -/
theorem mood_target_heights_witness :
    ((update (setMood begun 3) 33 noDraws).st.eyeLheightNext
        = ((update (setMood begun 3) 33 noDraws).st.eyeLheightDefault : Int) - 10 ∧
      (update (setMood begun 3) 33 noDraws).st.eyeRheightNext
        = ((update (setMood begun 3) 33 noDraws).st.eyeRheightDefault : Int) - 10) ∧
    ((update (setMood begun 1) 33 noDraws).st.eyeLheightNext
        = ((update (setMood begun 1) 33 noDraws).st.eyeLheightDefault : Int) - 15 ∧
      (update (setMood begun 1) 33 noDraws).st.eyeRheightNext
        = ((update (setMood begun 1) 33 noDraws).st.eyeRheightDefault : Int) - 15) :=
  ⟨(mood_target_heights (setMood begun 3) 33 noDraws (by decide)).1 rfl,
   (mood_target_heights (setMood begun 1) 33 noDraws (by decide)).2.1 rfl⟩

/-! ## Blinking and the mood pass -/

theorem closing_after_idleStep (s : Eyes) (now : Nat) (d : Draws) :
    (idleStep s now d).isBlinking = s.isBlinking ∧
      (idleStep s now d).blinkPhase = s.blinkPhase ∧
      (idleStep s now d).currentMood = s.currentMood := by
  rw [idleStep_frame]
  exact ⟨rfl, rfl, rfl⟩

/-- In the closing phase the blink state machine forces both height targets to 0. -/
theorem blinkStep_closing (s : Eyes) (hb : s.isBlinking = true) (hp : s.blinkPhase = 1) :
    (blinkStep s).isBlinking = true ∧ (blinkStep s).eyeLheightNext = 0 ∧
      (blinkStep s).eyeRheightNext = 0 ∧ (blinkStep s).currentMood = s.currentMood := by
  unfold blinkStep
  rw [if_pos hb, if_pos hp]
  exact ⟨hb, rfl, rfl, rfl⟩

/-- In a mood that is neither tired nor happy the mood pass leaves the height targets of
a blinking eye alone. -/
theorem moodHeights_blinking (s : Eyes) (hb : s.isBlinking = true)
    (h1 : s.currentMood ≠ 1) (h3 : s.currentMood ≠ 3) : moodHeights s = s := by
  unfold moodHeights
  rw [if_neg h3, if_neg h1]
  by_cases h2 : s.currentMood = 2
  · rw [if_pos h2]
  · rw [if_neg h2, if_neg (by rw [hb]; decide)]

/-- The height targets a tick ends with in the happy and in the tired mood, in terms of
the state the tick starts from. -/
theorem mood_heights_of_tick (s : Eyes) (now : Nat) (d : Draws)
    (hpass : ¬ wrap32 ((now : Int) - (s.fpsTimer : Int)) < wrap32 s.frameInterval) :
    (s.currentMood = 3 →
      (update s now d).st.eyeLheightNext = (s.eyeLheightDefault : Int) - 10 ∧
      (update s now d).st.eyeRheightNext = (s.eyeRheightDefault : Int) - 10) ∧
    (s.currentMood = 1 →
      (update s now d).st.eyeLheightNext = (s.eyeLheightDefault : Int) - 15 ∧
      (update s now d).st.eyeRheightNext = (s.eyeRheightDefault : Int) - 15) := by
  rw [update_st_pass s now d hpass]
  have hx := sameSetup_beforeMood s now d
  unfold tickBody
  generalize smoothTransitions (blinkStep
    (idleStep (autoBlinkStep { s with fpsTimer := now } now d) now d)) = x at hx ⊢
  obtain ⟨x1, x2, x3, _, _⟩ := hx
  obtain ⟨c1, c2⟩ := heights_after_curiosityWidths (moodHeights x)
  unfold applyMood
  rw [c1, c2]
  constructor
  · intro hm
    obtain ⟨m1, m2⟩ := moodHeights_happy x (x1.trans hm)
    rw [m1, m2, x2, x3]
    exact ⟨rfl, rfl⟩
  · intro hm
    obtain ⟨m1, m2⟩ := moodHeights_tired x (x1.trans hm)
    rw [m1, m2, x2, x3]
    exact ⟨rfl, rfl⟩

/-- Counterexample for C12: the begun instance in the happy mood, closing.  The
`update()` at 33 ms passes the frame-rate gate and ends with both height targets at
`36 - 10 = 26`, not 0. -/
theorem happy_mood_overrides_closing :
    happyClosing.isBlinking = true ∧ happyClosing.blinkPhase = 1 ∧
      happyClosing.currentMood = 3 ∧ gateBlocks happyClosing 33 = false ∧
      (update happyClosing 33 noDraws).st.blinkPhase = 1 ∧
      (update happyClosing 33 noDraws).st.eyeLheightNext = 26 ∧
      (update happyClosing 33 noDraws).st.eyeRheightNext = 26 ∧
      (update happyClosing 33 noDraws).st.eyeLheightNext ≠ 0 := by
  decide

/-- Claim C12, amended (mood overrides while closing).  For every state that is
blinking in phase 1 (closing), an `update()` that passes the frame-rate gate ends with
`eyeLheightNext = 0` and `eyeRheightNext = 0` in the default mood, in the angry mood and
for every mood value other than tired (1) and happy (3); in the happy and the tired mood
the mood pass replaces the two targets by the default heights minus 10 and minus 15. -/
theorem closing_targets_by_mood (s : Eyes) (now : Nat) (d : Draws)
    (hb : s.isBlinking = true) (hp : s.blinkPhase = 1)
    (hpass : ¬ wrap32 ((now : Int) - (s.fpsTimer : Int)) < wrap32 s.frameInterval) :
    (s.currentMood ≠ 1 → s.currentMood ≠ 3 →
      (update s now d).st.eyeLheightNext = 0 ∧ (update s now d).st.eyeRheightNext = 0) ∧
    (s.currentMood = 3 →
      (update s now d).st.eyeLheightNext = (s.eyeLheightDefault : Int) - 10 ∧
      (update s now d).st.eyeRheightNext = (s.eyeRheightDefault : Int) - 10) ∧
    (s.currentMood = 1 →
      (update s now d).st.eyeLheightNext = (s.eyeLheightDefault : Int) - 15 ∧
      (update s now d).st.eyeRheightNext = (s.eyeRheightDefault : Int) - 15) := by
  obtain ⟨g1, g2⟩ := mood_heights_of_tick s now d hpass
  refine ⟨?_, g1, g2⟩
  intro h1 h3
  rw [update_st_pass s now d hpass]
  unfold tickBody
  have hs1 : ({ s with fpsTimer := now } : Eyes).isBlinking = true := hb
  rw [autoBlinkStep_blinking _ now d hs1]
  obtain ⟨i1, i2, i3⟩ := closing_after_idleStep { s with fpsTimer := now } now d
  obtain ⟨b1, b2, b3, b4⟩ := blinkStep_closing (idleStep { s with fpsTimer := now } now d)
    (i1.trans hb) (i2.trans hp)
  generalize blinkStep (idleStep { s with fpsTimer := now } now d) = y at b1 b2 b3 b4 ⊢
  have hm : (smoothTransitions y).currentMood = s.currentMood := b4.trans i3
  have e : moodHeights (smoothTransitions y) = smoothTransitions y :=
    moodHeights_blinking _ b1 (by rw [hm]; exact h1) (by rw [hm]; exact h3)
  obtain ⟨c1, c2⟩ := heights_after_curiosityWidths (smoothTransitions y)
  unfold applyMood
  rw [e, c1, c2]
  exact ⟨b2, b3⟩

/-- Witness for C12 (amended): the begun instance, closing, in the default mood and in
the happy mood. -/
theorem closing_targets_by_mood_witness :
    ((update (blink begun) 33 noDraws).st.eyeLheightNext = 0 ∧
      (update (blink begun) 33 noDraws).st.eyeRheightNext = 0) ∧
    ((update happyClosing 33 noDraws).st.eyeLheightNext
        = (happyClosing.eyeLheightDefault : Int) - 10 ∧
      (update happyClosing 33 noDraws).st.eyeRheightNext
        = (happyClosing.eyeRheightDefault : Int) - 10) :=
  ⟨(closing_targets_by_mood (blink begun) 33 noDraws rfl rfl (by decide)).1
      (by decide) (by decide),
   (closing_targets_by_mood happyClosing 33 noDraws rfl rfl (by decide)).2.1 rfl⟩

/-! ## Curiosity -/

/-- The width targets the curiosity pass leaves, in terms of the state it leaves. -/
theorem curiosityWidths_policy (s : Eyes) :
    ((curiosityWidths s).curious = true ∧
        ((curiosityWidths s).eyeLxNext ≤ 10 ∨
          (curiosityWidths s).eyeLxNext ≥ (curiosityWidths s).screenWidth
            - (curiosityWidths s).eyeLwidthCurrent - (curiosityWidths s).spaceBetween
            - (curiosityWidths s).eyeRwidthCurrent - 10) →
      (curiosityWidths s).eyeLwidthNext = ((curiosityWidths s).eyeLwidthDefault : Int) + 8 ∧
      (curiosityWidths s).eyeRwidthNext = ((curiosityWidths s).eyeRwidthDefault : Int) + 8) ∧
    (¬ ((curiosityWidths s).curious = true ∧
        ((curiosityWidths s).eyeLxNext ≤ 10 ∨
          (curiosityWidths s).eyeLxNext ≥ (curiosityWidths s).screenWidth
            - (curiosityWidths s).eyeLwidthCurrent - (curiosityWidths s).spaceBetween
            - (curiosityWidths s).eyeRwidthCurrent - 10)) →
      (curiosityWidths s).eyeLwidthNext = ((curiosityWidths s).eyeLwidthDefault : Int) ∧
      (curiosityWidths s).eyeRwidthNext = ((curiosityWidths s).eyeRwidthDefault : Int)) := by
  unfold curiosityWidths getScreenConstraint_X
  split_ifs with hc hx
  · exact ⟨fun _ => ⟨rfl, rfl⟩, fun hn => absurd ⟨hc, hx⟩ hn⟩
  · exact ⟨fun hp => absurd hp.2 hx, fun _ => ⟨rfl, rfl⟩⟩
  · exact ⟨fun hp => absurd hp.1 hc, fun _ => ⟨rfl, rfl⟩⟩

/-- Claim C13 (curiosity policy).  After `applyMood()`, and so after every `update()`
that passes the frame-rate gate, in every mood: if curiosity is on and the left target x
is at most 10 or at least `maxX - 10`, with
`maxX = screenWidth - eyeLwidthCurrent - spaceBetween - eyeRwidthCurrent`, both width
targets are the default widths plus 8; in every other case they are the default widths.
(`applyMood()` changes none of the members the condition reads.) -/
theorem curiosity_policy (s : Eyes) :
    (((applyMood s).curious = true ∧
        ((applyMood s).eyeLxNext ≤ 10 ∨
          (applyMood s).eyeLxNext ≥ (applyMood s).screenWidth
            - (applyMood s).eyeLwidthCurrent - (applyMood s).spaceBetween
            - (applyMood s).eyeRwidthCurrent - 10) →
      (applyMood s).eyeLwidthNext = ((applyMood s).eyeLwidthDefault : Int) + 8 ∧
      (applyMood s).eyeRwidthNext = ((applyMood s).eyeRwidthDefault : Int) + 8) ∧
    (¬ ((applyMood s).curious = true ∧
        ((applyMood s).eyeLxNext ≤ 10 ∨
          (applyMood s).eyeLxNext ≥ (applyMood s).screenWidth
            - (applyMood s).eyeLwidthCurrent - (applyMood s).spaceBetween
            - (applyMood s).eyeRwidthCurrent - 10)) →
      (applyMood s).eyeLwidthNext = ((applyMood s).eyeLwidthDefault : Int) ∧
      (applyMood s).eyeRwidthNext = ((applyMood s).eyeRwidthDefault : Int))) ∧
    (applyMood s).curious = s.curious ∧ (applyMood s).eyeLxNext = s.eyeLxNext ∧
    (applyMood s).screenWidth = s.screenWidth ∧
    (applyMood s).eyeLwidthCurrent = s.eyeLwidthCurrent ∧
    (applyMood s).spaceBetween = s.spaceBetween ∧
    (applyMood s).eyeRwidthCurrent = s.eyeRwidthCurrent ∧
    (applyMood s).eyeLwidthDefault = s.eyeLwidthDefault ∧
    (applyMood s).eyeRwidthDefault = s.eyeRwidthDefault ∧
    ∀ (now : Nat) (d : Draws),
      ¬ wrap32 ((now : Int) - (s.fpsTimer : Int)) < wrap32 s.frameInterval →
      (((update s now d).st.curious = true ∧
          ((update s now d).st.eyeLxNext ≤ 10 ∨
            (update s now d).st.eyeLxNext ≥ (update s now d).st.screenWidth
              - (update s now d).st.eyeLwidthCurrent - (update s now d).st.spaceBetween
              - (update s now d).st.eyeRwidthCurrent - 10) →
        (update s now d).st.eyeLwidthNext
          = ((update s now d).st.eyeLwidthDefault : Int) + 8 ∧
        (update s now d).st.eyeRwidthNext
          = ((update s now d).st.eyeRwidthDefault : Int) + 8) ∧
      (¬ ((update s now d).st.curious = true ∧
          ((update s now d).st.eyeLxNext ≤ 10 ∨
            (update s now d).st.eyeLxNext ≥ (update s now d).st.screenWidth
              - (update s now d).st.eyeLwidthCurrent - (update s now d).st.spaceBetween
              - (update s now d).st.eyeRwidthCurrent - 10)) →
        (update s now d).st.eyeLwidthNext = ((update s now d).st.eyeLwidthDefault : Int) ∧
        (update s now d).st.eyeRwidthNext
          = ((update s now d).st.eyeRwidthDefault : Int))) := by
  refine ⟨curiosityWidths_policy (moodHeights s), ?_, ?_, ?_, ?_, ?_, ?_, ?_, ?_, ?_⟩
  · rw [applyMood_frame]
  · rw [applyMood_frame]
  · rw [applyMood_frame]
  · rw [applyMood_frame]
  · rw [applyMood_frame]
  · rw [applyMood_frame]
  · rw [applyMood_frame]
  · rw [applyMood_frame]
  · intro now d hpass
    rw [update_st_pass s now d hpass]
    exact curiosityWidths_policy (moodHeights (smoothTransitions (blinkStep
      (idleStep (autoBlinkStep { s with fpsTimer := now } now d) now d))))

/-- Witness for C13: the begun instance, curious and looking west (left target x = 0),
after one tick: both width targets are `36 + 8`. -/
theorem curiosity_policy_witness :
    (update (setPosition (setCuriosity begun true) 7) 33 noDraws).st.eyeLwidthNext
        = ((update (setPosition (setCuriosity begun true) 7) 33 noDraws).st.eyeLwidthDefault
          : Int) + 8 ∧
      (update (setPosition (setCuriosity begun true) 7) 33 noDraws).st.eyeRwidthNext
        = ((update (setPosition (setCuriosity begun true) 7) 33 noDraws).st.eyeRwidthDefault
          : Int) + 8 :=
  ((curiosity_policy (setPosition (setCuriosity begun true) 7)).2.2.2.2.2.2.2.2.2
    33 noDraws (by decide)).1 (by decide)

/-! ## Manual blink, open and close -/

/-- Claim C14 (a manual blink during a blink is a no-op).  In every state that is
blinking, whatever the phase, `blink()` returns the state unchanged; in every state that
is not blinking it sets `isBlinking = true` and `blinkPhase = 1` and changes nothing
else. -/
theorem blink_while_blinking_is_noop (s : Eyes) :
    (s.isBlinking = true → blink s = s) ∧
      (s.isBlinking = false → blink s = { s with isBlinking := true, blinkPhase := 1 }) := by
  constructor
  · intro h
    unfold blink
    rw [if_neg (by rw [h]; decide)]
  · intro h
    unfold blink
    rw [if_pos (by rw [h]; rfl)]

/-- Witness for C14: the begun instance, and the same instance in the opening phase. -/
theorem blink_while_blinking_is_noop_witness :
    blink { blink begun with blinkPhase := 3 } = { blink begun with blinkPhase := 3 } ∧
      blink begun = { begun with isBlinking := true, blinkPhase := 1 } :=
  ⟨(blink_while_blinking_is_noop { blink begun with blinkPhase := 3 }).1 rfl,
   (blink_while_blinking_is_noop begun).2 rfl⟩

theorem resting_after_idleStep (s : Eyes) (now : Nat) (d : Draws) :
    (idleStep s now d).isBlinking = s.isBlinking ∧ SameSetup (idleStep s now d) s := by
  unfold SameSetup
  rw [idleStep_frame]
  exact ⟨rfl, rfl, rfl, rfl, rfl, rfl⟩

/-- In the default mood the mood pass resets the height targets of an eye that is not
blinking. -/
theorem moodHeights_default (s : Eyes) (hm : s.currentMood = 0) (hb : s.isBlinking = false) :
    (moodHeights s).eyeLheightNext = (s.eyeLheightDefault : Int) ∧
      (moodHeights s).eyeRheightNext = (s.eyeRheightDefault : Int) := by
  unfold moodHeights
  rw [if_neg (by rw [hm]; decide), if_neg (by rw [hm]; decide), if_neg (by rw [hm]; decide),
    if_pos (by rw [hb]; rfl)]
  exact ⟨rfl, rfl⟩

/-- Counterexample for C20: the begun instance in the default mood, not blinking, with
the auto-blinker due at 3000 ms.  After `close()` the `update()` at 3000 ms passes the
frame-rate gate and starts a blink, and the height targets stay 0 instead of returning to
the default 36. -/
theorem close_persists_when_blink_starts :
    blinkDue.currentMood = 0 ∧ blinkDue.isBlinking = false ∧
      gateBlocks (close blinkDue) 3000 = false ∧
      (update (close blinkDue) 3000 noDraws).st.eyeLheightNext = 0 ∧
      (update (close blinkDue) 3000 noDraws).st.eyeRheightNext = 0 ∧
      (update (close blinkDue) 3000 noDraws).st.eyeLheightDefault = 36 ∧
      (update (close blinkDue) 3000 noDraws).st.eyeLheightNext
        ≠ ((update (close blinkDue) 3000 noDraws).st.eyeLheightDefault : Int) := by
  decide

/-- Claim C20, amended (`close()` does not persist in the default mood).  For every
state in the default mood with no blink in progress, `close()` followed by one `update()`
that passes the frame-rate gate and in which the auto-blinker does not fire ends with
`eyeLheightNext = eyeLheightDefault` and `eyeRheightNext = eyeRheightDefault`, while
`eyeL_open` and `eyeR_open` stay `false`. -/
theorem close_does_not_persist (s : Eyes) (now : Nat) (d : Draws)
    (hm : s.currentMood = 0) (hb : s.isBlinking = false)
    (hpass : ¬ wrap32 ((now : Int) - (s.fpsTimer : Int)) < wrap32 s.frameInterval)
    (hab : autoBlinkFires s now = false) :
    (update (close s) now d).st.eyeLheightNext
        = ((update (close s) now d).st.eyeLheightDefault : Int) ∧
      (update (close s) now d).st.eyeRheightNext
        = ((update (close s) now d).st.eyeRheightDefault : Int) ∧
      (update (close s) now d).st.eyeL_open = false ∧
      (update (close s) now d).st.eyeR_open = false := by
  have hpass2 : ¬ wrap32 ((now : Int) - ((close s).fpsTimer : Int))
      < wrap32 (close s).frameInterval := hpass
  rw [update_st_pass (close s) now d hpass2]
  unfold tickBody
  have hab2 : autoBlinkFires { close s with fpsTimer := now } now = false := hab
  rw [autoBlinkStep_idle _ now d hab2]
  obtain ⟨i1, i2⟩ := resting_after_idleStep { close s with fpsTimer := now } now d
  have hb2 : (idleStep { close s with fpsTimer := now } now d).isBlinking = false :=
    i1.trans hb
  rw [blinkStep_idle _ hb2]
  generalize idleStep { close s with fpsTimer := now } now d = y at i2 hb2 ⊢
  obtain ⟨j1, j2, j3, j4, j5⟩ := i2
  have hy : SameSetup (applyMood (smoothTransitions y)) (smoothTransitions y) :=
    sameSetup_applyMood _ _ ⟨rfl, rfl, rfl, rfl, rfl⟩
  obtain ⟨k1, k2, k3, k4, k5⟩ := hy
  obtain ⟨m1, m2⟩ := moodHeights_default (smoothTransitions y) (j1.trans hm) hb2
  obtain ⟨c1, c2⟩ := heights_after_curiosityWidths (moodHeights (smoothTransitions y))
  refine ⟨?_, ?_, k4.trans j4, k5.trans j5⟩
  · rw [k2]
    unfold applyMood
    rw [c1, m1]
  · rw [k3]
    unfold applyMood
    rw [c2, m2]

/-- Witness for C20 (amended): the begun instance, closed and ticked at 33 ms. -/
theorem close_does_not_persist_witness :
    (update (close begun) 33 noDraws).st.eyeLheightNext
        = ((update (close begun) 33 noDraws).st.eyeLheightDefault : Int) ∧
      (update (close begun) 33 noDraws).st.eyeRheightNext
        = ((update (close begun) 33 noDraws).st.eyeRheightDefault : Int) ∧
      (update (close begun) 33 noDraws).st.eyeL_open = false ∧
      (update (close begun) 33 noDraws).st.eyeR_open = false :=
  close_does_not_persist begun 33 noDraws rfl rfl (by decide) rfl

/-! ## Fixed points of the easing step -/

/-- On non-negative screen-sized values the step is `(4 * v + t) / 5`, rounded down. -/
theorem easeStep_nonneg (v t : Int) (hv0 : 0 ≤ v) (ht0 : 0 ≤ t) (hv : ScreenSized v)
    (ht : ScreenSized t) : easeStep v t = (4 * v + t) / 5 := by
  unfold ScreenSized at hv ht
  rw [easeStep_eq_tdiv v t hv ht, Int.tdiv_eq_ediv (by omega) (by norm_num)]

/-- A value at or above its target reaches the target within `v - t` steps and stays. -/
theorem easeStep_descends (t : Int) (ht0 : 0 ≤ t) (ht : ScreenSized t) :
    ∀ (n : Nat) (v : Int), t ≤ v → v ≤ t + n → ScreenSized v →
      (fun x => easeStep x t)^[n] v = t := by
  intro n
  induction n with
  | zero =>
    intro v h1 h2 _
    simp only [Function.iterate_zero, id_eq]
    omega
  | succ n ih =>
    intro v h1 h2 hv
    rw [Function.iterate_succ_apply]
    have e := easeStep_nonneg v t (by omega) ht0 hv ht
    unfold ScreenSized at hv ht
    apply ih
    · rw [e]; omega
    · rw [e]; push_cast at h2; omega
    · unfold ScreenSized
      rw [e]
      omega

/-- Claim C19 (fixed points of the easing step).  For non-negative screen-sized integers
`v` (current value) and `t` (target), one easing step leaves `v` unchanged if and only
if `0 ≤ t - v ≤ 4`: a value easing upward stops up to 4 below its target.  A value above
its target strictly decreases on every step without passing the target, and after at
most `v - t` steps it equals the target. -/
theorem easing_fixed_points (v t : Int) (hv0 : 0 ≤ v) (ht0 : 0 ≤ t) (hv : ScreenSized v)
    (ht : ScreenSized t) :
    (easeStep v t = v ↔ 0 ≤ t - v ∧ t - v ≤ 4) ∧
      (t < v → t ≤ easeStep v t ∧ easeStep v t < v) ∧
      (t < v → (fun x => easeStep x t)^[(v - t).toNat] v = t) := by
  have e := easeStep_nonneg v t hv0 ht0 hv ht
  refine ⟨?_, ?_, ?_⟩
  · rw [e]
    constructor <;> intro h <;> omega
  · intro h
    rw [e]
    constructor <;> omega
  · intro h
    exact easeStep_descends t ht0 ht (v - t).toNat v h.le (by omega) hv

/-- Witness for C19: the height 32 under the target 36 stays, and the height 36 over the
target 0 reaches 0. -/
theorem easing_fixed_points_witness :
    (easeStep 32 36 = 32 ↔ (0 : Int) ≤ 36 - 32 ∧ (36 : Int) - 32 ≤ 4) ∧
      ((0 : Int) ≤ easeStep 36 0 ∧ easeStep 36 0 < 36) ∧
      (fun x => easeStep x 0)^[((36 : Int) - 0).toNat] 36 = 0 :=
  ⟨(easing_fixed_points 32 36 (by decide) (by decide) (by decide) (by decide)).1,
   (easing_fixed_points 36 0 (by decide) (by decide) (by decide) (by decide)).2.1 (by decide),
   (easing_fixed_points 36 0 (by decide) (by decide) (by decide) (by decide)).2.2
     (by decide)⟩

/-! ## The blinking flag and the blink phase -/

theorem phaseAgrees_blink (s : Eyes) (h : PhaseAgrees s) : PhaseAgrees (blink s) := by
  unfold blink
  split_ifs
  · exact Or.inr ⟨rfl, Or.inl rfl⟩
  · exact h

/-- The flag and the phase after the auto-blinker branch: as before, or a blink has just
started. -/
theorem flag_after_autoBlinkStep (s : Eyes) (now : Nat) (d : Draws) :
    ((autoBlinkStep s now d).isBlinking = s.isBlinking ∧
        (autoBlinkStep s now d).blinkPhase = s.blinkPhase) ∨
      (s.isBlinking = false ∧ (autoBlinkStep s now d).isBlinking = true ∧
        (autoBlinkStep s now d).blinkPhase = 1) := by
  unfold autoBlinkStep
  split_ifs with hf
  · unfold blink
    by_cases hb : s.isBlinking = true
    · rw [if_neg (by rw [hb]; decide)]
      exact Or.inl ⟨rfl, rfl⟩
    · have hb2 : s.isBlinking = false := by simpa using hb
      rw [if_pos (by rw [hb2]; rfl)]
      exact Or.inr ⟨hb2, rfl, rfl⟩
  · exact Or.inl ⟨rfl, rfl⟩

theorem flag_after_idleStep (s : Eyes) (now : Nat) (d : Draws) :
    (idleStep s now d).isBlinking = s.isBlinking ∧
      (idleStep s now d).blinkPhase = s.blinkPhase := by
  rw [idleStep_frame]
  exact ⟨rfl, rfl⟩

/-- The flag and the phase after the blink state machine. -/
theorem flag_after_blinkStep (s : Eyes) :
    (s.isBlinking = false → (blinkStep s).isBlinking = false ∧
        (blinkStep s).blinkPhase = s.blinkPhase) ∧
      (s.isBlinking = true → s.blinkPhase = 1 → (blinkStep s).isBlinking = true ∧
        ((blinkStep s).blinkPhase = 1 ∨ (blinkStep s).blinkPhase = 2)) ∧
      (s.isBlinking = true → s.blinkPhase = 2 → (blinkStep s).isBlinking = true ∧
        (blinkStep s).blinkPhase = 3) ∧
      (s.isBlinking = true → s.blinkPhase = 3 →
        ((blinkStep s).isBlinking = true ∧ (blinkStep s).blinkPhase = 3) ∨
        ((blinkStep s).isBlinking = false ∧ (blinkStep s).blinkPhase = 0)) := by
  refine ⟨?_, ?_, ?_, ?_⟩
  · intro hb
    rw [blinkStep_idle s hb]
    exact ⟨hb, rfl⟩
  · intro hb hp
    unfold blinkStep
    rw [if_pos hb, if_pos hp]
    refine ⟨hb, ?_⟩
    by_cases hc : s.eyeLheightCurrent ≤ 2
    · exact Or.inr (if_pos hc)
    · exact Or.inl ((if_neg hc).trans hp)
  · intro hb hp
    unfold blinkStep
    rw [if_pos hb, if_neg (by rw [hp]; decide), if_pos hp]
    exact ⟨hb, rfl⟩
  · intro hb hp
    unfold blinkStep
    rw [if_pos hb, if_neg (by rw [hp]; decide), if_neg (by rw [hp]; decide), if_pos hp]
    split_ifs
    · exact Or.inr ⟨rfl, rfl⟩
    · exact Or.inl ⟨hb, hp⟩

theorem flag_after_applyMood (s : Eyes) :
    (applyMood s).isBlinking = s.isBlinking ∧ (applyMood s).blinkPhase = s.blinkPhase := by
  rw [applyMood_frame]
  exact ⟨rfl, rfl⟩

/-- One tick keeps the flag and the phase in agreement and moves the phase by at most one
step of the blink. -/
theorem phase_after_tickBody (s : Eyes) (now : Nat) (d : Draws) (h : PhaseAgrees s) :
    PhaseAgrees (tickBody s now d) ∧
      ((tickBody s now d).blinkPhase = s.blinkPhase ∨
        PhaseStep s.blinkPhase (tickBody s now d).blinkPhase) := by
  unfold tickBody
  obtain ⟨m1, m2⟩ := flag_after_applyMood (smoothTransitions (blinkStep
    (idleStep (autoBlinkStep { s with fpsTimer := now } now d) now d)))
  have n1 : (smoothTransitions (blinkStep (idleStep (autoBlinkStep
      { s with fpsTimer := now } now d) now d))).isBlinking
      = (blinkStep (idleStep (autoBlinkStep
        { s with fpsTimer := now } now d) now d)).isBlinking := rfl
  have n2 : (smoothTransitions (blinkStep (idleStep (autoBlinkStep
      { s with fpsTimer := now } now d) now d))).blinkPhase
      = (blinkStep (idleStep (autoBlinkStep
        { s with fpsTimer := now } now d) now d)).blinkPhase := rfl
  unfold PhaseAgrees PhaseStep
  rw [m1, m2, n1, n2]
  obtain ⟨i1, i2⟩ := flag_after_idleStep (autoBlinkStep { s with fpsTimer := now } now d) now d
  obtain ⟨b0, b1, b2, b3⟩ :=
    flag_after_blinkStep (idleStep (autoBlinkStep { s with fpsTimer := now } now d) now d)
  rw [i1, i2] at b0 b1 b2 b3
  have a := flag_after_autoBlinkStep { s with fpsTimer := now } now d
  have hs1 : ({ s with fpsTimer := now } : Eyes).isBlinking = s.isBlinking := rfl
  have hs2 : ({ s with fpsTimer := now } : Eyes).blinkPhase = s.blinkPhase := rfl
  rw [hs1, hs2] at a
  generalize (blinkStep (idleStep (autoBlinkStep
    { s with fpsTimer := now } now d) now d)).isBlinking = fb at b0 b1 b2 b3 ⊢
  generalize (blinkStep (idleStep (autoBlinkStep
    { s with fpsTimer := now } now d) now d)).blinkPhase = fp at b0 b1 b2 b3 ⊢
  generalize (autoBlinkStep { s with fpsTimer := now } now d).isBlinking = ab at a b0 b1 b2 b3
  generalize (autoBlinkStep { s with fpsTimer := now } now d).blinkPhase = ap at a b0 b1 b2 b3
  unfold PhaseAgrees at h
  rcases a with ⟨a1, a2⟩ | ⟨a0, a1, a2⟩
  · subst a1 a2
    rcases h with ⟨h1, h2⟩ | ⟨h1, h2 | h2 | h2⟩
    · obtain ⟨r1, r2⟩ := b0 h1
      rw [r1, r2, h2]
      exact ⟨Or.inl ⟨rfl, rfl⟩, Or.inl rfl⟩
    · obtain ⟨r1, r2 | r2⟩ := b1 h1 h2
      · rw [r1, r2, h2]
        exact ⟨Or.inr ⟨rfl, Or.inl rfl⟩, Or.inl rfl⟩
      · rw [r1, r2, h2]
        exact ⟨Or.inr ⟨rfl, Or.inr (Or.inl rfl)⟩, Or.inr (Or.inr (Or.inr (Or.inl ⟨rfl, rfl⟩)))⟩
    · obtain ⟨r1, r2⟩ := b2 h1 h2
      rw [r1, r2, h2]
      exact ⟨Or.inr ⟨rfl, Or.inr (Or.inr rfl)⟩,
        Or.inr (Or.inr (Or.inr (Or.inr (Or.inl ⟨rfl, rfl⟩))))⟩
    · rcases b3 h1 h2 with ⟨r1, r2⟩ | ⟨r1, r2⟩
      · rw [r1, r2, h2]
        exact ⟨Or.inr ⟨rfl, Or.inr (Or.inr rfl)⟩, Or.inl rfl⟩
      · rw [r1, r2, h2]
        exact ⟨Or.inl ⟨rfl, rfl⟩, Or.inr (Or.inr (Or.inr (Or.inr (Or.inr ⟨rfl, rfl⟩))))⟩
  · subst a1 a2
    rcases h with ⟨h1, h2⟩ | ⟨h1, _⟩
    · obtain ⟨r1, r2 | r2⟩ := b1 rfl rfl
      · rw [r1, r2, h2]
        exact ⟨Or.inr ⟨rfl, Or.inl rfl⟩, Or.inr (Or.inl ⟨rfl, rfl⟩)⟩
      · rw [r1, r2, h2]
        exact ⟨Or.inr ⟨rfl, Or.inr (Or.inl rfl)⟩, Or.inr (Or.inr (Or.inl ⟨rfl, rfl⟩))⟩
    · rw [h1] at a0
      cases a0

theorem phase_after_update (s : Eyes) (now : Nat) (d : Draws) (h : PhaseAgrees s) :
    PhaseAgrees (update s now d).st ∧
      ((update s now d).st.blinkPhase = s.blinkPhase ∨
        PhaseStep s.blinkPhase (update s now d).st.blinkPhase) := by
  rw [update_st]
  split_ifs
  · exact ⟨h, Or.inl rfl⟩
  · exact phase_after_tickBody s now d h

theorem phaseAgrees_updates (ticks : Nat → Nat × Draws) :
    ∀ (n k : Nat) (s : Eyes), PhaseAgrees s → PhaseAgrees (updates ticks n k s) := by
  intro n
  induction n with
  | zero =>
    intro k s h
    exact h
  | succ n ih =>
    intro k s h
    unfold updates
    exact ih (k + 1) _ (phase_after_update s _ _ h).1

theorem phaseAgrees_retargetX (s : Eyes) (a b : Int) (h : PhaseAgrees s) :
    PhaseAgrees { s with eyeLxNext := a, eyeRxNext := b } := h

theorem phaseAgrees_retargetY (s : Eyes) (c : Int) (h : PhaseAgrees s) :
    PhaseAgrees { s with eyeLyNext := c, eyeRyNext := c } := h

theorem phaseAgrees_confusedRound (ticks : Nat → Nat × Draws) (c : Int) (k : Nat) (s : Eyes)
    (h : PhaseAgrees s) : PhaseAgrees (confusedRound ticks c k s) := by
  unfold confusedRound
  have hb := phaseAgrees_updates ticks 5 k _ (phaseAgrees_retargetX s (c + 20)
    (c + 20 + s.eyeLwidthCurrent + s.spaceBetween) h)
  exact phaseAgrees_updates ticks 5 (k + 5) _ (phaseAgrees_retargetX _ _ _ hb)

theorem phaseAgrees_laughRound (ticks : Nat → Nat × Draws) (c : Int) (k : Nat) (s : Eyes)
    (h : PhaseAgrees s) : PhaseAgrees (laughRound ticks c k s) := by
  unfold laughRound
  have hb := phaseAgrees_updates ticks 5 k _ (phaseAgrees_retargetY s (c - 15) h)
  exact phaseAgrees_updates ticks 5 (k + 5) _ (phaseAgrees_retargetY _ (c + 15) hb)

theorem phaseAgrees_step (s : Eyes) (c : Call) (s1 : Eyes) (h : PhaseAgrees s)
    (hs : step s c = some s1) : PhaseAgrees s1 := by
  cases c with
  | begin w hh f now ok =>
    have hb : begin s w hh f now ok = some s1 := hs
    unfold begin at hb
    split_ifs at hb
    have e := Option.some.inj hb
    rw [← e]
    exact h
  | setWidth l r => cases hs; exact h
  | setHeight l r => cases hs; exact h
  | setBorderradius l r => cases hs; exact h
  | setSpacebetween sp => cases hs; exact h
  | setMood m => cases hs; exact h
  | setPosition p => cases hs; exact h
  | setCyclops b => cases hs; exact h
  | setCuriosity b => cases hs; exact h
  | setAutoblinker a i v now rnd =>
    cases hs
    unfold setAutoblinker
    split_ifs <;> exact h
  | setIdleMode a i v now rnd =>
    cases hs
    unfold setIdleMode
    split_ifs <;> exact h
  | blink => cases hs; exact phaseAgrees_blink s h
  | openEyes => cases hs; exact h
  | close => cases hs; exact h
  | anim_confused ticks =>
    have e : anim_confused s ticks = s1 := Option.some.inj hs
    rw [← e]
    have h3 := phaseAgrees_confusedRound ticks (Int.tdiv (getScreenConstraint_X s) 2) 20 _
      (phaseAgrees_confusedRound ticks (Int.tdiv (getScreenConstraint_X s) 2) 10 _
        (phaseAgrees_confusedRound ticks (Int.tdiv (getScreenConstraint_X s) 2) 0 s h))
    unfold anim_confused
    exact phaseAgrees_retargetX _ _ _ h3
  | anim_laugh ticks =>
    have e : anim_laugh s ticks = s1 := Option.some.inj hs
    rw [← e]
    have h3 := phaseAgrees_laughRound ticks (Int.tdiv (getScreenConstraint_Y s) 2) 20 _
      (phaseAgrees_laughRound ticks (Int.tdiv (getScreenConstraint_Y s) 2) 10 _
        (phaseAgrees_laughRound ticks (Int.tdiv (getScreenConstraint_Y s) 2) 0 s h))
    unfold anim_laugh
    exact phaseAgrees_retargetY _ _ h3
  | update now d =>
    have e : (update s now d).st = s1 := Option.some.inj hs
    rw [← e]
    exact (phase_after_update s now d h).1

/-- Counterexample for C18: the begun instance with the auto-blinker due at 3000 ms is
reached by public calls and is in phase 0; the `update()` at 3000 ms starts a blink and
ends in phase 1, a transition that is none of 1 to 2, 2 to 3 and 3 to 0. -/
theorem tick_starts_blink :
    run fresh [Call.begin 240 240 30 0 true, Call.setAutoblinker true 3 2 0 0]
        = some blinkDue ∧
      blinkDue.blinkPhase = 0 ∧ (update blinkDue 3000 noDraws).st.blinkPhase = 1 ∧
      (update blinkDue 3000 noDraws).st.isBlinking = true ∧
      ¬ ((blinkDue.blinkPhase = 1 ∧ (update blinkDue 3000 noDraws).st.blinkPhase = 2) ∨
         (blinkDue.blinkPhase = 2 ∧ (update blinkDue 3000 noDraws).st.blinkPhase = 3) ∨
         (blinkDue.blinkPhase = 3 ∧ (update blinkDue 3000 noDraws).st.blinkPhase = 0)) := by
  refine ⟨rfl, ?_, ?_, ?_, ?_⟩ <;> decide

set_option maxRecDepth 1000000 in
/-- A tick can also go from phase 0 to phase 2: with the eyes set 2 high and eased down
to that height by forty ticks, the auto-blinker firing at 3000 ms starts the blink and
the closing phase ends in the same `update()`. -/
theorem tick_skips_closing :
    (run blinkDue (Call.setHeight 2 2 :: updateCalls fortyTicks)).map
        (fun s => (s.blinkPhase, s.eyeLheightCurrent,
          (update s 3000 noDraws).st.blinkPhase)) = some (0, 2, 2) := by
  decide

/-- Claim C18, amended (blink flag and phase agree).  In every state reached from the
constructor by any sequence of public calls, `blinkPhase` is one of 0, 1, 2, 3 and
`isBlinking` is `true` if and only if `blinkPhase ≠ 0`; and a call of `update()` in such
a state either keeps the phase or makes one of the transitions 0 to 1 and 0 to 2 (the
auto-blinker starts a blink; 0 to 2 when the eye is already at most 2 high), 1 to 2,
2 to 3 and 3 to 0. -/
theorem blink_flag_and_phase (g : Eyes) (cs : List Call) (s : Eyes)
    (h : run (construct g) cs = some s) :
    (s.blinkPhase = 0 ∨ s.blinkPhase = 1 ∨ s.blinkPhase = 2 ∨ s.blinkPhase = 3) ∧
      (s.isBlinking = true ↔ s.blinkPhase ≠ 0) ∧
      ∀ (now : Nat) (d : Draws),
        (update s now d).st.blinkPhase = s.blinkPhase ∨
          PhaseStep s.blinkPhase (update s now d).st.blinkPhase := by
  have hp : PhaseAgrees s :=
    runWhile_invariant (fun _ _ => true) PhaseAgrees
      (fun a c b ha _ hs => phaseAgrees_step a c b ha hs) cs (construct g) s
      (Or.inl ⟨rfl, rfl⟩) h
  refine ⟨?_, ?_, fun now d => (phase_after_update s now d hp).2⟩
  · rcases hp with ⟨_, h2⟩ | ⟨_, h2 | h2 | h2⟩
    · exact Or.inl h2
    · exact Or.inr (Or.inl h2)
    · exact Or.inr (Or.inr (Or.inl h2))
    · exact Or.inr (Or.inr (Or.inr h2))
  · rcases hp with ⟨h1, h2⟩ | ⟨h1, h2 | h2 | h2⟩
    · rw [h1, h2]
      decide
    · rw [h1, h2]
      decide
    · rw [h1, h2]
      decide
    · rw [h1, h2]
      decide

/-- Witness for C18 (amended): the instance with the auto-blinker due. -/
theorem blink_flag_and_phase_witness :
    (blinkDue.blinkPhase = 0 ∨ blinkDue.blinkPhase = 1 ∨ blinkDue.blinkPhase = 2 ∨
        blinkDue.blinkPhase = 3) ∧
      (blinkDue.isBlinking = true ↔ blinkDue.blinkPhase ≠ 0) ∧
      ∀ (now : Nat) (d : Draws),
        (update blinkDue now d).st.blinkPhase = blinkDue.blinkPhase ∨
          PhaseStep blinkDue.blinkPhase (update blinkDue now d).st.blinkPhase :=
  blink_flag_and_phase zeroEyes
    [Call.begin 240 240 30 0 true, Call.setAutoblinker true 3 2 0 0] blinkDue rfl

/-! ## Drawing -/

/-- An eye of positive height is drawn as one rounded rectangle in the foreground colour,
followed only by eyelid shapes in the background colour. -/
theorem drawSingleEye_shape (s : Eyes) (gfx : Surface) (x y w h r : Int) (hh : 0 < h) :
    ∃ lids : List DrawCmd,
      drawSingleEye s gfx x y w h r = DrawCmd.fillRoundRect gfx x y w h r s.fgColor :: lids ∧
        ∀ c ∈ lids, c.color = some s.bgColor := by
  unfold drawSingleEye
  rw [if_neg (by omega)]
  simp only []
  split_ifs <;> exact ⟨_, rfl, by simp [DrawCmd.color]⟩

/-- What `drawSingleEye` draws depends on the state only through the two colours, the
mood and the cyclops flag. -/
theorem drawSingleEye_congr (s t : Eyes) (gfx : Surface) (x y w h r : Int)
    (h1 : t.fgColor = s.fgColor) (h2 : t.bgColor = s.bgColor)
    (h3 : t.currentMood = s.currentMood) (h4 : t.cyclops = s.cyclops) :
    drawSingleEye t gfx x y w h r = drawSingleEye s gfx x y w h r := by
  unfold drawSingleEye
  rw [h1, h2, h3, h4]

/-- In cyclops mode `drawEyes` reads, besides what `drawSingleEye` reads, the sprite
flag, the screen size and the size and border radius of the left eye. -/
theorem drawEyes_cyclops_congr (s t : Eyes) (hc : s.cyclops = true)
    (h1 : t.fgColor = s.fgColor) (h2 : t.bgColor = s.bgColor)
    (h3 : t.currentMood = s.currentMood) (h4 : t.cyclops = s.cyclops)
    (h5 : t.useSprite = s.useSprite) (h6 : t.screenWidth = s.screenWidth)
    (h7 : t.screenHeight = s.screenHeight) (h8 : t.eyeLwidthCurrent = s.eyeLwidthCurrent)
    (h9 : t.eyeLheightCurrent = s.eyeLheightCurrent)
    (h10 : t.eyeLborderRadius = s.eyeLborderRadius) : drawEyes t = drawEyes s := by
  have ht : t.cyclops = true := h4.trans hc
  have e : ∀ gfx, drawBoth t gfx = drawBoth s gfx := by
    intro gfx
    unfold drawBoth
    rw [if_pos ht, if_pos hc, h6, h7, h8, h9, h10]
    exact drawSingleEye_congr s t gfx _ _ _ _ _ h1 h2 h3 h4
  unfold drawEyes
  rw [e, e, h2, h5, h6, h7]

/-- Claim C15 (cyclops rendering).  In every state with cyclops on and
`eyeLheightCurrent > 0`, on the sprite path and on the direct path alike, `drawEyes()`
clears the surface and draws exactly one eye shape: one rounded rectangle in the
foreground colour at `x = screenWidth / 2 - eyeLwidthCurrent / 2`,
`y = screenHeight / 2 - eyeLheightCurrent / 2` (C++ integer division) with the current
width, the current height and the border radius of the left eye; every further shape is
an eyelid in the background colour, and the sprite path ends with the transfer of the
sprite.  A state that differs only in `eyeLx`, `eyeLy`, `eyeRx`, `eyeRy` and in the size
members of the right eye draws the same sequence of commands. -/
theorem cyclops_draws_one_eye (s : Eyes) (hc : s.cyclops = true)
    (hh : 0 < s.eyeLheightCurrent) :
    (∃ lids : List DrawCmd,
      drawEyes s
        = DrawCmd.fillScreen (if s.useSprite then Surface.sprite else Surface.display)
            s.bgColor
          :: DrawCmd.fillRoundRect (if s.useSprite then Surface.sprite else Surface.display)
            (Int.tdiv s.screenWidth 2 - Int.tdiv s.eyeLwidthCurrent 2)
            (Int.tdiv s.screenHeight 2 - Int.tdiv s.eyeLheightCurrent 2)
            s.eyeLwidthCurrent s.eyeLheightCurrent (s.eyeLborderRadius : Int) s.fgColor
          :: (lids ++ (if s.useSprite then
                [DrawCmd.drawRGBBitmap 0 0 s.screenWidth s.screenHeight] else [])) ∧
        ∀ c ∈ lids, c.color = some s.bgColor) ∧
    ∀ (lx ly rx ry rw rh rwn rhn : Int) (rwd rhd rbr : Nat),
      drawEyes { s with
        eyeLx := lx
        eyeLy := ly
        eyeRx := rx
        eyeRy := ry
        eyeRwidthCurrent := rw
        eyeRheightCurrent := rh
        eyeRwidthNext := rwn
        eyeRheightNext := rhn
        eyeRwidthDefault := rwd
        eyeRheightDefault := rhd
        eyeRborderRadius := rbr } = drawEyes s := by
  constructor
  · by_cases hu : s.useSprite = true
    · obtain ⟨lids, e, hl⟩ := drawSingleEye_shape s Surface.sprite
        (Int.tdiv s.screenWidth 2 - Int.tdiv s.eyeLwidthCurrent 2)
        (Int.tdiv s.screenHeight 2 - Int.tdiv s.eyeLheightCurrent 2)
        s.eyeLwidthCurrent s.eyeLheightCurrent (s.eyeLborderRadius : Int) hh
      refine ⟨lids, ?_, hl⟩
      unfold drawEyes drawBoth
      rw [if_pos hu, if_pos hc, e, if_pos hu, if_pos hu]
      rfl
    · obtain ⟨lids, e, hl⟩ := drawSingleEye_shape s Surface.display
        (Int.tdiv s.screenWidth 2 - Int.tdiv s.eyeLwidthCurrent 2)
        (Int.tdiv s.screenHeight 2 - Int.tdiv s.eyeLheightCurrent 2)
        s.eyeLwidthCurrent s.eyeLheightCurrent (s.eyeLborderRadius : Int) hh
      refine ⟨lids, ?_, hl⟩
      unfold drawEyes drawBoth
      rw [if_neg hu, if_pos hc, e, if_neg hu, if_neg hu]
      simp
  · intro lx ly rx ry rw rh rwn rhn rwd rhd rbr
    exact drawEyes_cyclops_congr s _ hc rfl rfl rfl rfl rfl rfl rfl rfl rfl rfl

/-- Witness for C15: the begun instance in cyclops mode, and the same instance with the
eyes moved. -/
theorem cyclops_draws_one_eye_witness :
    (∃ lids : List DrawCmd,
      drawEyes (setCyclops begun true)
        = DrawCmd.fillScreen Surface.sprite 0
          :: DrawCmd.fillRoundRect Surface.sprite 102 102 36 36 8 65535
          :: (lids ++ [DrawCmd.drawRGBBitmap 0 0 240 240]) ∧
        ∀ c ∈ lids, c.color = some 0) ∧
      drawEyes { setCyclops begun true with
        eyeLx := 0
        eyeLy := 0
        eyeRx := 200
        eyeRy := 0
        eyeRwidthCurrent := 10
        eyeRheightCurrent := 10
        eyeRwidthNext := 10
        eyeRheightNext := 10
        eyeRwidthDefault := 10
        eyeRheightDefault := 10
        eyeRborderRadius := 2 } = drawEyes (setCyclops begun true) :=
  ⟨(cyclops_draws_one_eye (setCyclops begun true) rfl (by decide)).1,
   (cyclops_draws_one_eye (setCyclops begun true) rfl (by decide)).2
     0 0 200 0 10 10 10 10 10 10 2⟩

/-- Counterexample for C16: in the happy mood the eye box `(79, 102, 36, 26)` gets the
overlay `fillRoundRect(78, 116, 38, 26, ..)`, whose bounding box starts at row 116; the
first row of the lower half, `y + height / 2 = 115`, is outside it. -/
theorem happy_overlay_misses_first_row :
    drawSingleEye (setMood begun 3) Surface.sprite 79 102 36 26 8
        = [DrawCmd.fillRoundRect Surface.sprite 79 102 36 26 8 65535,
           DrawCmd.fillRoundRect Surface.sprite 78 116 38 26 8 0] ∧
      (102 : Int) + Int.tdiv 26 2 = 115 ∧
      ¬ boxContains (DrawCmd.fillRoundRect Surface.sprite 78 116 38 26 8 0) 79 115 := by
  decide

/-- Claim C16, amended (happy overlay).  For every eye box `(x, y, width, height)` with
`height > 0` in the happy mood, `drawSingleEye()` issues, in this order, the eye as a
rounded rectangle in the foreground colour and then exactly one rounded rectangle in the
background colour, `fillRoundRect(x - 1, y + height - height / 2 + 1, width + 2, height)`.
Its bounding box contains every row from `y + height - height / 2 + 1` to
`y + height - 1` over the full width `x .. x + width - 1`; it spans the columns
`x - 1 .. x + width` and the rows `y + height - height / 2 + 1 .. y + 2 * height -
height / 2`, so it reaches below the eye box and does not contain the row
`y + height / 2`. -/
theorem happy_overlay (s : Eyes) (gfx : Surface) (x y w h r : Int)
    (hm : s.currentMood = 3) (hh : 0 < h) :
    drawSingleEye s gfx x y w h r
        = [DrawCmd.fillRoundRect gfx x y w h r s.fgColor,
           DrawCmd.fillRoundRect gfx (x - 1) (y + h - Int.tdiv h 2 + 1) (w + 2) h r
             s.bgColor] ∧
      (∀ px py : Int, x ≤ px → px ≤ x + w - 1 →
        y + h - Int.tdiv h 2 + 1 ≤ py → py ≤ y + h - 1 →
        boxContains (DrawCmd.fillRoundRect gfx (x - 1) (y + h - Int.tdiv h 2 + 1) (w + 2) h r
          s.bgColor) px py) ∧
      (∀ px py : Int,
        boxContains (DrawCmd.fillRoundRect gfx (x - 1) (y + h - Int.tdiv h 2 + 1) (w + 2) h r
          s.bgColor) px py ↔
        (x - 1 ≤ px ∧ px ≤ x + w ∧
          y + h - Int.tdiv h 2 + 1 ≤ py ∧ py ≤ y + 2 * h - Int.tdiv h 2)) ∧
      (∀ px : Int, ¬ boxContains (DrawCmd.fillRoundRect gfx (x - 1)
          (y + h - Int.tdiv h 2 + 1) (w + 2) h r s.bgColor) px (y + Int.tdiv h 2)) := by
  have hd : Int.tdiv h 2 = h / 2 := Int.tdiv_eq_ediv hh.le (by norm_num)
  refine ⟨?_, ?_, ?_, ?_⟩
  · unfold drawSingleEye
    rw [if_neg (by omega)]
    simp only []
    rw [if_neg (by rw [hm]; decide), if_neg (by rw [hm]; decide), if_pos hm]
  · intro px py h1 h2 h3 h4
    unfold boxContains
    simp only []
    omega
  · intro px py
    unfold boxContains
    simp only []
    constructor <;> intro hb <;> omega
  · intro px
    unfold boxContains
    simp only []
    rw [hd]
    omega

/-- Witness for C16 (amended): the eye box `(79, 102, 36, 26)` of the begun instance in
the happy mood. -/
theorem happy_overlay_witness :
    drawSingleEye (setMood begun 3) Surface.sprite 79 102 36 26 8
        = [DrawCmd.fillRoundRect Surface.sprite 79 102 36 26 8 (setMood begun 3).fgColor,
           DrawCmd.fillRoundRect Surface.sprite (79 - 1) (102 + 26 - Int.tdiv 26 2 + 1)
             (36 + 2) 26 8 (setMood begun 3).bgColor] :=
  (happy_overlay (setMood begun 3) Surface.sprite 79 102 36 26 8 rfl (by decide)).1

/-! ### The angry eyelids -/

/-- Evidence for C17: the begun instance in the angry mood, cyclops off, both eyes 36 by 36
at `(79, 102)` and `(125, 102)`.  `drawEyes()` draws over the left eye the triangle
`(79, 101), (115, 101), (115, 119)` and over the right eye the triangle
`(125, 101), (161, 101), (161, 119)`: the low corner is on the right side of both eye
boxes, the second triangle is the first one moved by 46 pixels and not its mirror image
`(161, 101), (125, 101), (125, 119)`. -/
theorem angry_eyelids_not_mirrored :
    drawEyes (setMood begun 2)
      = [DrawCmd.fillScreen Surface.sprite 0,
         DrawCmd.fillRoundRect Surface.sprite 79 102 36 36 8 65535,
         DrawCmd.fillTriangle Surface.sprite 79 101 115 101 115 119 0,
         DrawCmd.fillRoundRect Surface.sprite 125 102 36 36 8 65535,
         DrawCmd.fillTriangle Surface.sprite 125 101 161 101 161 119 0,
         DrawCmd.drawRGBBitmap 0 0 240 240] := by
  decide

/-- In the angry mood with cyclops off every eye box gets the same eyelid, with the low
corner at the right end `x + width` of the box: `drawSingleEye` is not told which eye it
draws. -/
theorem angry_eyelid (s : Eyes) (gfx : Surface) (x y w h r : Int)
    (hm : s.currentMood = 2) (hc : s.cyclops = false) (hh : 0 < h) :
    drawSingleEye s gfx x y w h r
      = [DrawCmd.fillRoundRect gfx x y w h r s.fgColor,
         DrawCmd.fillTriangle gfx x (y - 1) (x + w) (y - 1) (x + w)
           (y + Int.tdiv h 2 - 1) s.bgColor] := by
  unfold drawSingleEye
  rw [if_neg (by omega)]
  simp only []
  rw [if_neg (by rw [hm]; decide), if_pos hm, if_neg (by rw [hc]; decide)]

end RoboEyes
